import Mathlib

/-!
Verification of the WhatsApp course-information bot (`src/main.py`).

The Python service is shallowly embedded below: every pure helper of the
source becomes a Lean function over `String` / `List`; the module-level
mutable state (`_cache`, `_sessions`) becomes explicit state values that the
embedded operations take and return; machine time (`time.time()`) becomes an
integer parameter counting seconds (every property at stake involves only
whole-second ages); the two external network calls (the spreadsheet
fetch and the Twilio notification) become explicit input parameters carrying
their outcome.  Strings are Lean `String`s (UTF-8, like Python 3 `str`).

Unicode caveat: the source folds text with `unicodedata.normalize('NFD')`
followed by removal of combining marks.  The embedding implements that
lowering/decomposition for the Latin repertoire the program actually
handles (ASCII letters plus the Spanish accented letters and their
combining marks); every other character is left unchanged.
-/

namespace Motiva

/-- Substring test, Python's `needle in haystack` on `str`. -/
def substr (pat s : String) : Bool :=
  s.data.tails.any (fun t => pat.data.isPrefixOf t)

/-- The whitespace class of Python `str.strip()` (ASCII part). -/
def isPySpace (c : Char) : Bool :=
  c == ' ' || c == '\t' || c == '\n' || c == '\r' || c == '\x0b' || c == '\x0c'

/-- Python `s.strip()`. -/
def pstrip (s : String) : String :=
  ⟨((s.data.dropWhile isPySpace).reverse.dropWhile isPySpace).reverse⟩

/-- Python `any(k in text for k in keywords)` (source `_has_any`). -/
def _has_any (text : String) (keywords : List String) : Bool :=
  keywords.any (fun k => substr k text)

/-- Lowercasing table: ASCII `A`-`Z` plus the accented capitals the data
uses, mirroring Python `str.lower()` on this repertoire. -/
def lowerPairs : List (Char × Char) :=
  [('A','a'),('B','b'),('C','c'),('D','d'),('E','e'),('F','f'),('G','g'),
   ('H','h'),('I','i'),('J','j'),('K','k'),('L','l'),('M','m'),('N','n'),
   ('O','o'),('P','p'),('Q','q'),('R','r'),('S','s'),('T','t'),('U','u'),
   ('V','v'),('W','w'),('X','x'),('Y','y'),('Z','z'),
   ('Á','á'),('É','é'),('Í','í'),('Ó','ó'),('Ú','ú'),('Ü','ü'),('Ñ','ñ')]

/-- NFD-decompose-and-drop-combining-marks table: each accented lowercase
letter maps to its base letter, and bare combining marks map to nothing. -/
def stripPairs : List (Char × List Char) :=
  [('á',['a']),('é',['e']),('í',['i']),('ó',['o']),('ú',['u']),
   ('ü',['u']),('ñ',['n']),
   ('̀',[]),('́',[]),('̃',[]),('̈',[])]

/-- One character of Python `str.lower()`. -/
def lowerChar (c : Char) : Char :=
  match lowerPairs.find? (fun p => p.1 == c) with
  | some p => p.2
  | none => c

/-- One character of NFD decomposition followed by combining-mark removal. -/
def stripChar (c : Char) : List Char :=
  match stripPairs.find? (fun p => p.1 == c) with
  | some p => p.2
  | none => [c]

/-- Character-level composition used by the source's `_fold`. -/
def foldChar (c : Char) : List Char :=
  stripChar (lowerChar c)

/-- Folding of a character list: lowercase, NFD, drop combining marks. -/
def foldList (l : List Char) : List Char :=
  (l.map foldChar).flatten

/-- Source `_fold` on a present string: `s.lower()`, NFD-normalize, drop
combining characters. -/
def foldStr (s : String) : String :=
  ⟨foldList s.data⟩

/-- Source `_fold`, including the `(s or '')` guard for a `None` argument. -/
def _fold (s : Option String) : String :=
  foldStr (s.getD "")

/-- Python `str.lower()` on a whole string (no diacritic stripping). -/
def lowerStr (s : String) : String :=
  ⟨s.data.map lowerChar⟩

/-- The characters that either table mentions. -/
def foldSpecialChars : List Char :=
  lowerPairs.map Prod.fst ++ stripPairs.map Prod.fst

lemma lowerChar_eq_self_of_not_special {c : Char} (h : c ∉ foldSpecialChars) :
    lowerChar c = c := by
  have hfind : lowerPairs.find? (fun p => p.1 == c) = none := by
    rw [List.find?_eq_none]
    intro p hp hbeq
    apply h
    have : p.1 = c := by simpa using hbeq
    subst this
    exact List.mem_append_left _ (List.mem_map_of_mem Prod.fst hp)
  simp [lowerChar, hfind]

lemma stripChar_eq_self_of_not_special {c : Char} (h : c ∉ foldSpecialChars) :
    stripChar c = [c] := by
  have hfind : stripPairs.find? (fun p => p.1 == c) = none := by
    rw [List.find?_eq_none]
    intro p hp hbeq
    apply h
    have : p.1 = c := by simpa using hbeq
    subst this
    exact List.mem_append_right _ (List.mem_map_of_mem Prod.fst hp)
  simp [stripChar, hfind]

/-- Folding a single already-folded character is the identity. -/
lemma foldList_foldChar (c : Char) : foldList (foldChar c) = foldChar c := by
  by_cases h : c ∈ foldSpecialChars
  · fin_cases h <;> decide
  · rw [show foldChar c = [c] from by
      simp [foldChar, lowerChar_eq_self_of_not_special h,
        stripChar_eq_self_of_not_special h]]
    simp [foldList, foldChar, lowerChar_eq_self_of_not_special h,
      stripChar_eq_self_of_not_special h]

lemma foldList_append (a b : List Char) :
    foldList (a ++ b) = foldList a ++ foldList b := by
  simp [foldList]

/-- Folding is idempotent at the character-list level. -/
lemma foldList_idem (l : List Char) : foldList (foldList l) = foldList l := by
  induction l with
  | nil => simp [foldList]
  | cons c rest ih =>
    have : foldList (c :: rest) = foldChar c ++ foldList rest := by
      simp [foldList]
    rw [this, foldList_append, foldList_foldChar, ih]

/-- Claim C9: text normalization (`_fold`) is idempotent for every string,
removes diacritics (so `Educación` and `Educacion` normalize equally), and
is total, mapping a missing (`None`) or empty input to the empty string. -/
theorem claim_C9 :
    (∀ x : String, foldStr (foldStr x) = foldStr x) ∧
    foldStr "Educación" = foldStr "Educacion" ∧
    _fold none = "" ∧ _fold (some "") = "" := by
  refine ⟨fun x => ?_, by decide, by decide, by decide⟩
  show (⟨foldList (foldList x.data)⟩ : String) = ⟨foldList x.data⟩
  rw [foldList_idem]

/-! ## Python dict model

The source keeps several Python dicts (spreadsheet rows, the alias index,
the session map).  A dict is modelled as an association list in insertion
order; `dictSet` mirrors Python assignment `d[k] = v` (an existing key keeps
its position and gets the new value, a new key is appended) and `dget`
mirrors `d.get(k)`. -/

/-- Python `d.get(k)` (`None` when absent). -/
def dget {α : Type} (k : String) : List (String × α) → Option α
  | [] => none
  | p :: rest => if p.1 == k then some p.2 else dget k rest

/-- Python `d[k] = v`. -/
def dictSet {α : Type} (d : List (String × α)) (k : String) (v : α) :
    List (String × α) :=
  if d.any (fun p => p.1 == k) then
    d.map (fun p => if p.1 == k then (k, v) else p)
  else d ++ [(k, v)]

/-- Python `d.pop(k, None)` (here: remove the binding of `k`). -/
def dictPop {α : Type} (d : List (String × α)) (k : String) :
    List (String × α) :=
  d.filter (fun p => p.1 != k)

lemma dget_append {α : Type} (k : String) (a b : List (String × α)) :
    dget k (a ++ b) = (dget k a).orElse (fun _ => dget k b) := by
  induction a with
  | nil => simp [dget]
  | cons p rest ih =>
    by_cases h : p.1 == k
    · simp [dget, h]
    · simp [dget, h, ih]

lemma dget_eq_none_of_not_any {α : Type} {k : String} {d : List (String × α)}
    (h : d.any (fun p => p.1 == k) = false) : dget k d = none := by
  induction d with
  | nil => rfl
  | cons p rest ih =>
    simp only [List.any_cons, Bool.or_eq_false_iff] at h
    simp [dget, h.1, ih h.2]

lemma map_overwrite_id {α : Type} {d : List (String × α)} {k : String}
    {v : α} (h : d.any (fun p => p.1 == k) = false) :
    d.map (fun p => if p.1 == k then (k, v) else p) = d := by
  induction d with
  | nil => rfl
  | cons p rest ih =>
    simp only [List.any_cons, Bool.or_eq_false_iff] at h
    rw [List.map_cons, if_neg (by simp [h.1]), ih h.2]

lemma dget_map_overwrite {α : Type} (d : List (String × α)) (k : String)
    (v : α) (k' : String)
    (hany : d.any (fun p => p.1 == k) = true) :
    dget k' (d.map (fun p => if p.1 == k then (k, v) else p)) =
      if k' = k then some v else dget k' d := by
  induction d with
  | nil => simp at hany
  | cons p rest ih =>
    simp only [List.any_cons, Bool.or_eq_true] at hany
    rw [List.map_cons]
    by_cases hp : (p.1 == k) = true
    · have hpk : p.1 = k := by simpa using hp
      rw [if_pos hp]
      by_cases hk : k' = k
      · subst hk
        simp [dget, hpk]
      · have hkk' : (k == k') = false := by
          simp only [beq_eq_false_iff_ne, ne_eq]
          exact fun hh => hk hh.symm
        have hpk' : (p.1 == k') = false := by rw [hpk]; exact hkk'
        simp only [dget, hkk', Bool.false_eq_true, if_false, hpk', if_neg hk]
        by_cases hrest : (rest.any fun q => q.1 == k) = true
        · rw [ih hrest, if_neg hk]
        · rw [map_overwrite_id (Bool.eq_false_iff.mpr hrest)]
    · rw [if_neg hp]
      have h : (rest.any fun q => q.1 == k) = true := by
        rcases hany with hcontra | hh
        · exact absurd hcontra hp
        · exact hh
      by_cases hpk' : (p.1 == k') = true
      · have hk : k' ≠ k := by
          intro hkk
          subst hkk
          exact hp hpk'
        simp [dget, hpk', hk]
      · have h1 : (p.1 == k') = false := Bool.eq_false_iff.mpr hpk'
        simp only [dget, h1, Bool.false_eq_true, if_false]
        exact ih h

lemma dget_dictSet {α : Type} (d : List (String × α)) (k : String) (v : α)
    (k' : String) :
    dget k' (dictSet d k v) = if k' = k then some v else dget k' d := by
  unfold dictSet
  by_cases hany : (d.any fun p => p.1 == k) = true
  · rw [if_pos hany, dget_map_overwrite d k v k' hany]
  · rw [if_neg hany, dget_append]
    have hnone : dget k d = none :=
      dget_eq_none_of_not_any (Bool.eq_false_iff.mpr hany)
    by_cases hk : k' = k
    · subst hk
      rw [hnone]
      simp [dget, Option.orElse]
    · rw [if_neg hk]
      cases hd : dget k' d with
      | some a => simp [hd, Option.orElse]
      | none =>
        have : (k == k') = false := by
          simp only [beq_eq_false_iff_ne, ne_eq]
          exact fun hh => hk hh.symm
        simp [hd, Option.orElse, dget, this]

lemma map_fst_dictSet {α : Type} (d : List (String × α)) (k : String) (v : α) :
    (dictSet d k v).map Prod.fst =
      if (d.any fun p => p.1 == k) = true then d.map Prod.fst
      else d.map Prod.fst ++ [k] := by
  unfold dictSet
  by_cases hany : (d.any fun p => p.1 == k) = true
  · rw [if_pos hany, if_pos hany, List.map_map]
    apply List.map_congr_left
    intro p _
    by_cases hp : (p.1 == k) = true
    · have : p.1 = k := by simpa using hp
      simp [Function.comp, hp, this]
    · simp [Function.comp, hp]
  · rw [if_neg hany, if_neg hany]
    simp

lemma nodup_keys_dictSet {α : Type} {d : List (String × α)} {k : String}
    {v : α} (h : (d.map Prod.fst).Nodup) :
    ((dictSet d k v).map Prod.fst).Nodup := by
  rw [map_fst_dictSet]
  by_cases hany : (d.any fun p => p.1 == k) = true
  · rwa [if_pos hany]
  · rw [if_neg hany]
    have hk : k ∉ d.map Prod.fst := by
      intro hmem
      apply hany
      rw [List.any_eq_true]
      rcases List.mem_map.mp hmem with ⟨p, hp, hfst⟩
      exact ⟨p, hp, by simp [hfst]⟩
    simp only [List.nodup_append, List.nodup_cons, List.not_mem_nil,
      not_false_iff, List.nodup_nil, and_true, true_and]
    constructor
    · exact h
    · intro a ha
      simp only [List.mem_singleton]
      intro hak
      subst hak
      exact hk ha

/-! ## Spreadsheet rows and the alias index -/

/-- A spreadsheet row: a Python dict from header name to cell text. -/
abbrev Row := List (String × String)

/-- Python `(r.get(k) or '')`: a missing key and an empty cell are alike. -/
def rowGet (r : Row) (k : String) : String :=
  (dget k r).getD ""

/-- Fuel-indexed worker for `splitRuns`; the fuel (initially the list
length) only makes the recursion structural and never runs out. -/
def splitRunsFuel (p : Char → Bool) : Nat → List Char → List (List Char)
  | _, [] => []
  | 0, _ => []
  | fuel + 1, c :: cs =>
    if p c then (c :: cs.takeWhile p) :: splitRunsFuel p fuel (cs.dropWhile p)
    else splitRunsFuel p fuel cs

/-- Maximal runs of characters satisfying `p` (the pieces that
`re.findall`/`re.split` of the source produce). -/
def splitRuns (p : Char → Bool) (l : List Char) : List (List Char) :=
  splitRunsFuel p l.length l

/-- The separator class `[\n,;|/]` of the alias splitter. -/
def isAliasDelim (c : Char) : Bool :=
  c == '\n' || c == ',' || c == ';' || c == '|' || c == '/'

/-- The normalized alias keys a row contributes, in source order:
split the `Alias` cell on `[\n,;|/]+`, trim each part, drop empties,
fold the rest (source `_rebuild_alias_index`, inner loop). -/
def aliasKeys (r : Row) : List String :=
  let cell := pstrip (rowGet r "Alias")
  if cell = "" then []
  else
    (((splitRuns (fun c => !(isAliasDelim c)) cell.data).map
        (fun l => pstrip ⟨l⟩)).filter (fun a => a ≠ "")).map foldStr

/-- Source `_rebuild_alias_index`: one dict assignment per alias key of
each row, rows in catalog order. -/
def _rebuild_alias_index (rows : List Row) : List (String × Row) :=
  rows.foldl (fun idx r => (aliasKeys r).foldl (fun i k => dictSet i k r) idx) []

lemma dget_foldl_dictSet {α : Type} (ks : List String) (v : α)
    (idx : List (String × α)) (k : String) :
    dget k (ks.foldl (fun i k' => dictSet i k' v) idx) =
      if k ∈ ks then some v else dget k idx := by
  induction ks generalizing idx with
  | nil => simp
  | cons k0 rest ih =>
    rw [List.foldl_cons, ih]
    by_cases hk : k ∈ rest
    · simp [hk]
    · rw [if_neg hk, dget_dictSet]
      by_cases h0 : k = k0
      · simp [h0]
      · rw [if_neg h0, if_neg (by simp [h0, hk])]

lemma getLast?_cons_elim {α : Type} (a : α) (l : List α) :
    (a :: l).getLast? = some (l.getLast?.getD a) := by
  cases l with
  | nil => rfl
  | cons b t =>
    rw [List.getLast?_cons_cons]
    have hne : (b :: t) ≠ [] := by simp
    obtain ⟨x, hx⟩ := Option.isSome_iff_exists.mp (List.getLast?_isSome.mpr hne)
    rw [hx]
    rfl

lemma rebuild_aux (rows : List Row) (idx : List (String × Row)) (k : String) :
    dget k (rows.foldl
        (fun i r => (aliasKeys r).foldl (fun j k' => dictSet j k' r) i) idx) =
      ((rows.filter (fun r => (aliasKeys r).contains k)).getLast?).elim
        (dget k idx) some := by
  induction rows generalizing idx with
  | nil => rfl
  | cons r rest ih =>
    rw [List.foldl_cons, ih]
    by_cases hr : ((aliasKeys r).contains k) = true
    · have hkmem : k ∈ aliasKeys r := by simpa [List.contains] using hr
      have hfil : (r :: rest).filter (fun r => (aliasKeys r).contains k) =
          r :: rest.filter (fun r => (aliasKeys r).contains k) := by
        simp [List.filter_cons, hkmem]
      rw [hfil, getLast?_cons_elim]
      cases hlast : (rest.filter (fun r => (aliasKeys r).contains k)).getLast? with
      | some r' => simp [hlast]
      | none =>
        simp only [hlast, Option.elim, Option.getD]
        rw [dget_foldl_dictSet, if_pos hkmem]
    · have hknot : k ∉ aliasKeys r := by simpa [List.contains] using hr
      have hfil : (r :: rest).filter (fun r => (aliasKeys r).contains k) =
          rest.filter (fun r => (aliasKeys r).contains k) := by
        simp [List.filter_cons, hknot]
      rw [hfil]
      cases hlast : (rest.filter (fun r => (aliasKeys r).contains k)).getLast? with
      | some r' => simp [hlast]
      | none =>
        simp only [hlast, Option.elim]
        rw [dget_foldl_dictSet, if_neg hknot]

lemma nodup_keys_foldl_dictSet {α : Type} (ks : List String) (v : α)
    {idx : List (String × α)} (h : (idx.map Prod.fst).Nodup) :
    (((ks.foldl (fun i k' => dictSet i k' v) idx)).map Prod.fst).Nodup := by
  induction ks generalizing idx with
  | nil => exact h
  | cons k0 rest ih => exact ih (nodup_keys_dictSet h)

/-- Claim C10: the alias index built on catalog refresh binds each
normalized alias key at most once (its key list has no duplicates), and a
key shared by the alias cells of several rows is bound to the last such row
in catalog order: looking the key up yields exactly the last row whose
alias keys contain it. -/
theorem claim_C10 :
    (∀ rows : List Row, ((_rebuild_alias_index rows).map Prod.fst).Nodup) ∧
    (∀ (rows : List Row) (k : String),
      dget k (_rebuild_alias_index rows) =
        (rows.filter (fun r => (aliasKeys r).contains k)).getLast?) := by
  constructor
  · intro rows
    unfold _rebuild_alias_index
    have : (([] : List (String × Row)).map Prod.fst).Nodup := by simp
    generalize hidx : ([] : List (String × Row)) = idx at this
    clear hidx
    induction rows generalizing idx with
    | nil => exact this
    | cons r rest ih =>
      rw [List.foldl_cons]
      exact ih _ (nodup_keys_foldl_dictSet _ _ this)
  · intro rows k
    unfold _rebuild_alias_index
    rw [rebuild_aux]
    cases hlast : (rows.filter (fun r => (aliasKeys r).contains k)).getLast? with
    | some r => rfl
    | none => rfl

/-! ## Price-column resolution -/

/-- Fuel-indexed worker for `replaceAll`; the fuel (initially the list
length) only makes the recursion structural and never runs out. -/
def replaceAllFuel (pat : List Char) : Nat → List Char → List Char
  | _, [] => []
  | 0, s => s
  | fuel + 1, c :: rest =>
    if pat ≠ [] ∧ pat.isPrefixOf (c :: rest) then
      replaceAllFuel pat fuel (rest.drop (pat.length - 1))
    else c :: replaceAllFuel pat fuel rest

/-- Python `s.replace(pat, '')`: remove every (left-to-right,
non-overlapping) occurrence of `pat`. -/
def replaceAll (pat s : List Char) : List Char :=
  replaceAllFuel pat s.length s

/-- The sender number as the source normalizes it:
`from_number.replace('whatsapp:', '').replace('+', '')`. -/
def stripNumber (n : String) : List Char :=
  replaceAll ("+".data) (replaceAll ("whatsapp:".data) n.data)

/-- Source `COUNTRY_PRICE_COLUMN`, in insertion order.  The source sorts
its keys by descending length before matching; since the three-digit codes
already precede the two-digit ones and Python's sort is stable, that sorted
order coincides with this insertion order (see
`country_price_column_sorted`). -/
def COUNTRY_PRICE_COLUMN : List (String × String) :=
  [("506", "Inscripción Costa Rica"),
   ("598", "Inscripción Uruguay"),
   ("595", "Inscripción Paraguay"),
   ("591", "Inscripción Bolivia"),
   ("54", "Inscripción Argentina"),
   ("56", "Inscripción Chile"),
   ("57", "Inscripción Colombia"),
   ("52", "Inscripción México"),
   ("51", "Inscripción Perú")]

lemma country_price_column_sorted :
    COUNTRY_PRICE_COLUMN.Sorted (fun a b => b.1.length ≤ a.1.length) := by
  decide

/-- Source `COUNTRY_WORD_TO_COL`, in insertion order. -/
def COUNTRY_WORD_TO_COL : List (String × String) :=
  [("argentina", "Inscripción Argentina"),
   ("bolivia", "Inscripción Bolivia"),
   ("chile", "Inscripción Chile"),
   ("colombia", "Inscripción Colombia"),
   ("costa rica", "Inscripción Costa Rica"),
   ("mexico", "Inscripción México"),
   ("méxico", "Inscripción México"),
   ("paraguay", "Inscripción Paraguay"),
   ("peru", "Inscripción Perú"),
   ("perú", "Inscripción Perú"),
   ("uruguay", "Inscripción Uruguay"),
   ("resto", "Inscripción Resto Países")]

/-- Every price column a resolution can produce. -/
def PRICE_COLUMNS : List String :=
  ["Inscripción Argentina", "Inscripción Bolivia", "Inscripción Chile",
   "Inscripción Colombia", "Inscripción Costa Rica", "Inscripción México",
   "Inscripción Paraguay", "Inscripción Perú", "Inscripción Uruguay",
   "Inscripción Resto Países"]

/-- Source `guess_country_price_column`: strip `whatsapp:` and `+` from the
sender number, then return the column of the first calling-code prefix that
matches, prefixes tried from longest to shortest. -/
def guess_country_price_column (from_number : String) : String :=
  match COUNTRY_PRICE_COLUMN.find?
      (fun p => p.1.data.isPrefixOf (stripNumber from_number)) with
  | some p => p.2
  | none => "Inscripción Resto Países"

/-- Source `pick_price_column_from_text`: a country word in the message
text wins; otherwise fall back to the sender-number prefix. -/
def pick_price_column_from_text (body_lower from_number : String) : String :=
  match COUNTRY_WORD_TO_COL.find? (fun p => substr p.1 body_lower) with
  | some p => p.2
  | none => guess_country_price_column from_number

/-- Claim C4: price-column resolution is total (always one of the valid
columns) and two-staged: a country word in the text decides the column
independently of the sender number (uniquely-matching word gives exactly
its column); with no country word the stripped sender number is matched
against calling-code prefixes longest-first (so `+59163...` resolves to the
Bolivia column), and with no match at all the rest-of-world column is
returned. -/
theorem claim_C4 :
    (∀ t n, pick_price_column_from_text t n ∈ PRICE_COLUMNS) ∧
    (∀ t n n', (∃ p ∈ COUNTRY_WORD_TO_COL, substr p.1 t = true) →
      pick_price_column_from_text t n = pick_price_column_from_text t n') ∧
    (∀ t n p, p ∈ COUNTRY_WORD_TO_COL → substr p.1 t = true →
      (∀ q ∈ COUNTRY_WORD_TO_COL, substr q.1 t = true → q = p) →
      pick_price_column_from_text t n = p.2) ∧
    (∀ t n, (∀ p ∈ COUNTRY_WORD_TO_COL, substr p.1 t = false) →
      pick_price_column_from_text t n = guess_country_price_column n) ∧
    (∀ n, (∀ p ∈ COUNTRY_PRICE_COLUMN,
        p.1.data.isPrefixOf (stripNumber n) = false) →
      guess_country_price_column n = "Inscripción Resto Países") ∧
    pick_price_column_from_text "hola" "whatsapp:+59163000000" =
      "Inscripción Bolivia" ∧
    pick_price_column_from_text (foldStr "Precio en Bolivia por favor")
      "whatsapp:+5491155550000" = "Inscripción Bolivia" := by
  refine ⟨?_, ?_, ?_, ?_, ?_, by decide, by decide⟩
  · intro t n
    unfold pick_price_column_from_text
    cases hfind : COUNTRY_WORD_TO_COL.find? (fun p => substr p.1 t) with
    | some p =>
      have hp := List.mem_of_find?_eq_some hfind
      have hall : ∀ q ∈ COUNTRY_WORD_TO_COL, q.2 ∈ PRICE_COLUMNS := by decide
      exact hall p hp
    | none =>
      show guess_country_price_column n ∈ PRICE_COLUMNS
      unfold guess_country_price_column
      cases hfind2 : COUNTRY_PRICE_COLUMN.find?
          (fun p => p.1.data.isPrefixOf (stripNumber n)) with
      | some p =>
        have hp := List.mem_of_find?_eq_some hfind2
        have hall : ∀ q ∈ COUNTRY_PRICE_COLUMN, q.2 ∈ PRICE_COLUMNS := by decide
        exact hall p hp
      | none => decide
  · intro t n n' hex
    unfold pick_price_column_from_text
    cases hfind : COUNTRY_WORD_TO_COL.find? (fun p => substr p.1 t) with
    | some p => rfl
    | none =>
      exfalso
      obtain ⟨p, hp, hsub⟩ := hex
      exact absurd hsub (by simpa using List.find?_eq_none.mp hfind p hp)
  · intro t n p hp hsub huniq
    unfold pick_price_column_from_text
    cases hfind : COUNTRY_WORD_TO_COL.find? (fun p => substr p.1 t) with
    | some q =>
      have hq := List.mem_of_find?_eq_some hfind
      have hqsub := List.find?_some hfind
      rw [huniq q hq hqsub]
    | none =>
      exact absurd hsub (by simpa using List.find?_eq_none.mp hfind p hp)
  · intro t n hnone
    unfold pick_price_column_from_text
    rw [List.find?_eq_none.mpr (fun p hp => by simp [hnone p hp])]
  · intro n hnone
    unfold guess_country_price_column
    rw [List.find?_eq_none.mpr (fun p hp => by simp [hnone p hp])]

/-- Concrete instantiations of the conditional parts of `claim_C4`. -/
theorem claim_C4_witness :
    pick_price_column_from_text "precio bolivia" "+10000" =
      "Inscripción Bolivia" ∧
    pick_price_column_from_text "zzz" "+99900" =
      guess_country_price_column "+99900" ∧
    guess_country_price_column "+99900" = "Inscripción Resto Países" :=
  ⟨claim_C4.2.2.1 "precio bolivia" "+10000" ("bolivia", "Inscripción Bolivia")
      (by decide) (by decide) (by decide),
   claim_C4.2.2.2.1 "zzz" "+99900" (by decide),
   claim_C4.2.2.2.2.1 "+99900" (by decide)⟩

/-! ## Catalog cache and refresh (`fetch_sheet_rows`)

The module-level `_cache` dict becomes the `Cache` structure, `time.time()`
becomes the `now` parameter, the `SHEET_CSV_URL` environment value becomes
the `url` parameter, and the outcome of `requests.get` + CSV parsing
becomes the `ext` parameter (`err` models a transport failure, i.e.
`raise_for_status` raising; `ok` carries the parsed header names and
records).  `FetchResult.fetched` records whether an external fetch was
issued; errors raised by the Python code become `Except.error` values,
with the schema error carrying the list of missing headers that the
Python message interpolates. -/

/-- The module-level `_cache` dict: rows, fetch timestamp, alias index. -/
structure Cache where
  rows : List Row
  t : ℤ
  alias_idx : List (String × Row)

/-- Errors a refresh can raise. -/
inductive FetchErr where
  | transport
  | schema (missing : List String) (rawHeaders : List String)

/-- Outcome of the external CSV fetch. -/
inductive FetchOutcome where
  | err
  | ok (rawHeaders : List String) (records : List Row)

/-- Result of one `fetch_sheet_rows` call. -/
structure FetchResult where
  result : Except FetchErr (List Row)
  cache : Cache
  fetched : Bool

def CACHE_SECONDS : ℤ := 300

/-- Source `EXPECTED_HEADERS` (the `Alias` header is optional). -/
def EXPECTED_HEADERS : List String :=
  ["Curso", "Texto Principal", "Link PDF", "Fecha de Inicio",
   "Fechas de clases", "Duración", "Horarios",
   "Inscripción Argentina", "Inscripción Bolivia", "Inscripción Chile",
   "Inscripción Colombia", "Inscripción Costa Rica", "Inscripción México",
   "Inscripción Paraguay", "Inscripción Perú", "Inscripción Uruguay",
   "Inscripción Resto Países", "FAQ"]

/-- Source `HEADER_SYNONYMS`. -/
def HEADER_SYNONYMS : List (String × String) :=
  [("Valor Inscripción Uruguay", "Inscripción Uruguay")]

/-- Header cleanup: `(h or '').strip().lstrip('﻿')` then the synonym
table. -/
def cleanHeader (h : String) : String :=
  (dget (⟨(pstrip h).data.dropWhile (fun c => c == '﻿')⟩ : String)
    HEADER_SYNONYMS).getD ⟨(pstrip h).data.dropWhile (fun c => c == '﻿')⟩

/-- The required headers absent from the (cleaned) received headers. -/
def missingHeaders (rawHeaders : List String) : List String :=
  EXPECTED_HEADERS.filter (fun h => !((rawHeaders.map cleanHeader).contains h))

/-- Per-record cleanup: clean each key, trim each value (dict semantics on
duplicate cleaned keys). -/
def cleanRow (raw : Row) : Row :=
  raw.foldl (fun acc kv => dictSet acc (cleanHeader kv.1) (pstrip kv.2)) []

/-- Clean all records and keep those with a non-empty `Curso` cell. -/
def parsedRows (records : List Row) : List Row :=
  (records.map cleanRow).filter (fun r => rowGet r "Curso" != "")

/-- Source `fetch_sheet_rows`. -/
def fetch_sheet_rows (c : Cache) (force : Bool) (now : ℤ) (url : Option String)
    (ext : FetchOutcome) : FetchResult :=
  if force = false ∧ c.rows ≠ [] ∧ now - c.t < CACHE_SECONDS then
    ⟨.ok c.rows, c, false⟩
  else if url.getD "" = "" then
    ⟨.ok [], ⟨[], now, []⟩, false⟩
  else
    match ext with
    | .err => ⟨.error .transport, c, true⟩
    | .ok rawHeaders records =>
      if missingHeaders rawHeaders ≠ [] then
        ⟨.error (.schema (missingHeaders rawHeaders) rawHeaders), c, true⟩
      else
        ⟨.ok (parsedRows records),
         ⟨parsedRows records, now, _rebuild_alias_index (parsedRows records)⟩,
         true⟩

lemma fetch_cache_hit (c : Cache) (now : ℤ) (url : Option String)
    (ext : FetchOutcome) (hrows : c.rows ≠ [])
    (hage : now - c.t < CACHE_SECONDS) :
    fetch_sheet_rows c false now url ext = ⟨.ok c.rows, c, false⟩ := by
  unfold fetch_sheet_rows
  rw [if_pos ⟨rfl, hrows, hage⟩]

lemma fetch_ok_fetched_cache {c : Cache} {force : Bool} {now : ℤ}
    {url : Option String} {ext : FetchOutcome} {rows1 : List Row}
    (hres : (fetch_sheet_rows c force now url ext).result = .ok rows1)
    (hf : (fetch_sheet_rows c force now url ext).fetched = true) :
    (fetch_sheet_rows c force now url ext).cache =
      ⟨rows1, now, _rebuild_alias_index rows1⟩ := by
  unfold fetch_sheet_rows at hres hf ⊢
  by_cases h1 : force = false ∧ c.rows ≠ [] ∧ now - c.t < CACHE_SECONDS
  · rw [if_pos h1] at hf
    simp at hf
  · rw [if_neg h1] at hres hf ⊢
    by_cases h2 : url.getD "" = ""
    · rw [if_pos h2] at hf
      simp at hf
    · rw [if_neg h2] at hres hf ⊢
      cases ext with
      | err => simp at hres
      | ok rawHeaders records =>
        dsimp only at hres hf ⊢
        by_cases h3 : missingHeaders rawHeaders ≠ []
        · rw [if_pos h3] at hres
          simp at hres
        · rw [if_neg h3] at hres ⊢
          have : parsedRows records = rows1 := by
            simpa using hres
          simp [this]

/-- Claim C1 (amended): with a data-source URL configured, a call with
`force=false` while the cached snapshot is non-empty and younger than 300
seconds returns the cached rows without an external fetch (so a successful
fetching call followed by such a call issues exactly one fetch); an empty
cached snapshot is refetched even inside the TTL window; and `force=true`
always issues an external fetch. -/
theorem claim_C1 :
    CACHE_SECONDS = 300 ∧
    (∀ (c : Cache) (now : ℤ) (url : Option String) (ext : FetchOutcome),
      c.rows ≠ [] → now - c.t < CACHE_SECONDS →
      fetch_sheet_rows c false now url ext = ⟨.ok c.rows, c, false⟩) ∧
    (∀ (c : Cache) (now : ℤ) (url : Option String) (ext : FetchOutcome),
      url.getD "" ≠ "" →
      (fetch_sheet_rows c true now url ext).fetched = true) ∧
    (∀ (c : Cache) (now : ℤ) (url : Option String) (ext : FetchOutcome),
      url.getD "" ≠ "" → c.rows = [] →
      (fetch_sheet_rows c false now url ext).fetched = true) ∧
    (∀ (c : Cache) (now now' : ℤ) (url url' : Option String)
        (ext ext' : FetchOutcome) (rows1 : List Row),
      (fetch_sheet_rows c false now url ext).result = .ok rows1 →
      (fetch_sheet_rows c false now url ext).fetched = true →
      rows1 ≠ [] → now' - now < CACHE_SECONDS →
      fetch_sheet_rows (fetch_sheet_rows c false now url ext).cache false
          now' url' ext' =
        ⟨.ok rows1, (fetch_sheet_rows c false now url ext).cache, false⟩) := by
  refine ⟨rfl, fun c now url ext h1 h2 => fetch_cache_hit c now url ext h1 h2,
    ?_, ?_, ?_⟩
  · intro c now url ext hurl
    unfold fetch_sheet_rows
    rw [if_neg (by simp), if_neg hurl]
    cases ext with
    | err => rfl
    | ok rawHeaders records =>
      dsimp only
      by_cases h3 : missingHeaders rawHeaders ≠ []
      · rw [if_pos h3]
      · rw [if_neg h3]
  · intro c now url ext hurl hempty
    unfold fetch_sheet_rows
    rw [if_neg (by simp [hempty]), if_neg hurl]
    cases ext with
    | err => rfl
    | ok rawHeaders records =>
      dsimp only
      by_cases h3 : missingHeaders rawHeaders ≠ []
      · rw [if_pos h3]
      · rw [if_neg h3]
  · intro c now now' url url' ext ext' rows1 hres hf hne hage
    rw [fetch_ok_fetched_cache hres hf]
    exact fetch_cache_hit _ now' url' ext' hne hage

/-- Claim C1 as stated fails: with a URL configured, a `force=false` call
on an empty cached snapshot of age 1 second issues an external fetch; and
`force=true` with no URL configured issues none. -/
theorem claim_C1_counterexample :
    ((fetch_sheet_rows ⟨[], 10, []⟩ false 11 (some "u") .err).fetched = true ∧
      (11 : ℤ) - 10 < 300) ∧
    (fetch_sheet_rows ⟨[[("Curso", "X")]], 10, []⟩ true 11 none .err).fetched
      = false := by
  exact ⟨⟨rfl, by norm_num⟩, rfl⟩

/-- Concrete instantiation of the conditional parts of `claim_C1`. -/
theorem claim_C1_witness :
    fetch_sheet_rows ⟨[[("Curso", "X")]], 10, []⟩ false 11 (some "u") .err =
      ⟨.ok [[("Curso", "X")]], ⟨[[("Curso", "X")]], 10, []⟩, false⟩ ∧
    (fetch_sheet_rows ⟨[], 10, []⟩ true 11 (some "u") .err).fetched = true :=
  ⟨claim_C1.2.1 ⟨[[("Curso", "X")]], 10, []⟩ 11 (some "u") .err
      (by simp) (by norm_num [CACHE_SECONDS]),
   claim_C1.2.2.1 ⟨[], 10, []⟩ 11 (some "u") .err (by simp)⟩

/-- Claim C8: a refresh that reaches processing and finds required headers
missing fails with a schema error carrying exactly the list of missing
headers, leaving the cache untouched; and every failing refresh (transport
or schema) leaves the cached snapshot exactly as it was. -/
theorem claim_C8 :
    (∀ (c : Cache) (force : Bool) (now : ℤ) (url : Option String)
        (ext : FetchOutcome) (e : FetchErr),
      (fetch_sheet_rows c force now url ext).result = .error e →
      (fetch_sheet_rows c force now url ext).cache = c) ∧
    (∀ (c : Cache) (force : Bool) (now : ℤ) (url : Option String)
        (rawHeaders : List String) (records : List Row),
      ¬(force = false ∧ c.rows ≠ [] ∧ now - c.t < CACHE_SECONDS) →
      url.getD "" ≠ "" →
      missingHeaders rawHeaders ≠ [] →
      fetch_sheet_rows c force now url (.ok rawHeaders records) =
        ⟨.error (.schema (missingHeaders rawHeaders) rawHeaders), c, true⟩) := by
  constructor
  · intro c force now url ext e hres
    unfold fetch_sheet_rows at hres ⊢
    by_cases h1 : force = false ∧ c.rows ≠ [] ∧ now - c.t < CACHE_SECONDS
    · rw [if_pos h1] at hres
      simp at hres
    · rw [if_neg h1] at hres ⊢
      by_cases h2 : url.getD "" = ""
      · rw [if_pos h2] at hres
        simp at hres
      · rw [if_neg h2] at hres ⊢
        cases ext with
        | err => rfl
        | ok rawHeaders records =>
          dsimp only at hres ⊢
          by_cases h3 : missingHeaders rawHeaders ≠ []
          · rw [if_pos h3]
          · rw [if_neg h3] at hres
            simp at hres
  · intro c force now url rawHeaders records h1 h2 h3
    unfold fetch_sheet_rows
    rw [if_neg h1, if_neg h2]
    dsimp only
    rw [if_pos h3]

/-- Concrete instantiation of `claim_C8`: fetching headers `["Curso"]`
fails with the seventeen other required headers listed and preserves the
cache. -/
theorem claim_C8_witness :
    fetch_sheet_rows ⟨[[("Curso", "X")]], 10, []⟩ true 11 (some "u")
        (.ok ["Curso"] []) =
      ⟨.error (.schema (missingHeaders ["Curso"]) ["Curso"]),
       ⟨[[("Curso", "X")]], 10, []⟩, true⟩ :=
  claim_C8.2 ⟨[[("Curso", "X")]], 10, []⟩ true 11 (some "u") ["Curso"] []
    (by simp) (by simp) (by decide)

/-! ## Session store

The module-level `_sessions` dict maps a sender number to the pair of the
stored course row and the write timestamp (`{'course': row, 't': now}`). -/

def SESSION_TTL : ℤ := 3600

/-- Source `set_session_course`. -/
def set_session_course (sessions : List (String × (Row × ℤ)))
    (from_number : String) (row : Row) (now : ℤ) :
    List (String × (Row × ℤ)) :=
  dictSet sessions from_number (row, now)

/-- Source `get_session_course`; the second component is the session map
after the call (the source deletes an expired entry in place). -/
def get_session_course (sessions : List (String × (Row × ℤ))) (now : ℤ)
    (from_number : String) : Option Row × List (String × (Row × ℤ)) :=
  match dget from_number sessions with
  | none => (none, sessions)
  | some rt =>
    if now - rt.2 > SESSION_TTL then (none, dictPop sessions from_number)
    else (some rt.1, sessions)

lemma dget_dictPop {α : Type} (d : List (String × α)) (k : String) :
    dget k (dictPop d k) = none := by
  induction d with
  | nil => rfl
  | cons p rest ih =>
    by_cases h : (p.1 == k) = true
    · have hb : (p.1 != k) = false := by simp [bne, h]
      simpa [dictPop, List.filter, hb] using ih
    · have hb : (p.1 != k) = true := by simp [bne, Bool.eq_false_iff.mpr h]
      simpa [dictPop, List.filter, hb, dget, h] using ih

/-- Claim C7: the session TTL is one hour; an entry written at time `T` is
still returned (unchanged, with the stored row shared) at any age up to
3600 seconds, and at any age strictly beyond 3600 seconds `get` deletes the
entry (so the sender is no longer in the map) and returns nothing; in
general `get` on a stored entry deletes-and-returns-none exactly when its
age exceeds the TTL and otherwise returns the stored row unchanged. -/
theorem claim_C7 :
    SESSION_TTL = 3600 ∧
    (∀ (sessions : List (String × (Row × ℤ))) (f : String) (r : Row)
        (T d : ℤ), d ≤ 3600 →
      get_session_course (set_session_course sessions f r T) (T + d) f =
        (some r, set_session_course sessions f r T)) ∧
    (∀ (sessions : List (String × (Row × ℤ))) (f : String) (r : Row)
        (T d : ℤ), d > 3600 →
      (get_session_course (set_session_course sessions f r T) (T + d) f).1 =
        none ∧
      dget f
        (get_session_course (set_session_course sessions f r T) (T + d) f).2 =
        none) ∧
    (∀ (sessions : List (String × (Row × ℤ))) (now : ℤ) (f : String)
        (r : Row) (t : ℤ), dget f sessions = some (r, t) →
      (now - t > SESSION_TTL →
        get_session_course sessions now f = (none, dictPop sessions f)) ∧
      (¬(now - t > SESSION_TTL) →
        get_session_course sessions now f = (some r, sessions))) := by
  refine ⟨rfl, ?_, ?_, ?_⟩
  · intro sessions f r T d hdle
    have hd : dget f (dictSet sessions f (r, T)) = some (r, T) := by
      rw [dget_dictSet]
      simp
    unfold get_session_course set_session_course
    rw [hd]
    dsimp only
    rw [if_neg (by
      simp only [SESSION_TTL]
      have : T + d - T = d := by ring
      rw [this]
      exact not_lt.mpr hdle)]
  · intro sessions f r T d hdgt
    have hd : dget f (dictSet sessions f (r, T)) = some (r, T) := by
      rw [dget_dictSet]
      simp
    unfold get_session_course set_session_course
    rw [hd]
    dsimp only
    rw [if_pos (by
      simp only [SESSION_TTL]
      have : T + d - T = d := by ring
      rw [this]
      exact hdgt)]
    exact ⟨rfl, dget_dictPop _ _⟩
  · intro sessions now f r t hdget
    unfold get_session_course
    rw [hdget]
    dsimp only
    constructor
    · intro hgt
      rw [if_pos hgt]
    · intro hle
      rw [if_neg hle]

/-- Concrete instantiation of `claim_C7`: an entry written at time 0 is
returned at age 3599 and deleted at age 3601. -/
theorem claim_C7_witness :
    get_session_course (set_session_course [] "+59170" ([("Curso", "X")] : Row)
        0) (0 + 3599) "+59170" =
      (some [("Curso", "X")], set_session_course [] "+59170"
        ([("Curso", "X")] : Row) 0) ∧
    (get_session_course (set_session_course [] "+59170"
        ([("Curso", "X")] : Row) 0) (0 + 3601) "+59170").1 = none :=
  ⟨claim_C7.2.1 [] "+59170" ([("Curso", "X")] : Row) 0 3599 (by norm_num),
   (claim_C7.2.2.1 [] "+59170" ([("Curso", "X")] : Row) 0 3601 (by norm_num)).1⟩

/-! ## FAQ matching -/

/-- Source `STOPWORDS_ES` (kept verbatim, duplicates and all; it is used
only through membership). -/
def STOPWORDS_ES : List String :=
  ["de", "del", "la", "las", "el", "los", "un", "una", "unos", "unas",
   "y", "o", "u", "a", "ante", "bajo", "cabe", "con", "contra", "desde",
   "durante", "en", "entre", "hacia", "hasta", "mediante", "para", "por",
   "segun", "según", "sin", "so", "sobre", "tras",
   "al", "lo", "le", "les", "es", "son", "fue", "fueron", "era", "eran",
   "ser", "estar", "estoy", "esta", "estan", "estamos", "estas", "este",
   "estos", "estas", "ese", "esa", "esos", "esas", "que", "como", "cual",
   "cuales", "quien", "quienes",
   "donde", "adonde", "cuando", "cuanto", "cuantos", "cual", "cuale",
   "cuales",
   "ya", "no", "si", "hay", "soy", "eres", "somos"]

/-- Source `TOKEN_SYNONYMS`. -/
def TOKEN_SYNONYMS : List (String × String) :=
  [("grabada", "grabadas"), ("grabadas", "grabadas"), ("grabado", "grabadas"),
   ("grabados", "grabadas"), ("grabacion", "grabadas"),
   ("grabaciones", "grabadas"), ("repeticion", "grabadas"),
   ("repeticiones", "grabadas"), ("ondemand", "grabadas"),
   ("demand", "grabadas"), ("despues", "grabadas"),
   ("costo", "precio"), ("valor", "precio"), ("arancel", "precio"),
   ("inversion", "precio"), ("pago", "precio"),
   ("hora", "horarios"), ("cronograma", "horarios"),
   ("metodologia", "metodologia"), ("metodo", "metodologia"),
   ("titulo", "titulo"), ("licencia", "licencia"),
   ("certificacion", "certificado"), ("certificados", "certificado"),
   ("certificado", "certificado"),
   ("docente", "docentes"), ("docentes", "docentes"),
   ("profesor", "docentes"), ("profesores", "docentes"),
   ("plataforma", "plataforma"), ("material", "materiales"),
   ("materiales", "materiales"), ("videos", "materiales"),
   ("presentaciones", "materiales"), ("libros", "materiales"),
   ("guias", "materiales"), ("planillas", "materiales"),
   ("requisitos", "requisitos"), ("dirigido", "dirigido"),
   ("audio", "audio"), ("audios", "audio"), ("voz", "audio")]

/-- Source `_normalize_token`. -/
def _normalize_token (t : String) : String :=
  (dget t TOKEN_SYNONYMS).getD t

/-- The character class `[a-z0-9]` of `_faq_tokens`. -/
def isAsciiWordChar (c : Char) : Bool :=
  (decide ('a' ≤ c) && decide (c ≤ 'z')) ||
    (decide ('0' ≤ c) && decide (c ≤ '9'))

/-- Source `_faq_tokens`: fold, split on `[a-z0-9]+` runs, keep tokens of
length at least 3 outside the stop-word list, apply the synonym table. -/
def _faq_tokens (s : String) : List String :=
  (((splitRuns isAsciiWordChar (foldStr s).data).map
      (fun l => (⟨l⟩ : String))).filter
    (fun t => decide (3 ≤ t.length) && !(STOPWORDS_ES.contains t))).map
    _normalize_token

/-- The strip set of `u.strip(" \t\r\n.?!¡¿")` in the FAQ block parser. -/
def faqStripSet : List Char :=
  [' ', '\t', '\r', '\n', '.', '?', '!', '¡', '¿']

/-- Strip the characters of `cs` from both ends (Python `s.strip(cs)`). -/
def stripCharsBoth (cs : List Char) (s : String) : String :=
  ⟨((s.data.dropWhile (fun c => cs.contains c)).reverse.dropWhile
      (fun c => cs.contains c)).reverse⟩

/-- Case-insensitive index of the first occurrence of the (lowercase)
pattern, mirroring the `re.I` searches of the FAQ block regex. -/
def findCI (pat : List Char) : List Char → Option Nat
  | [] => if pat.isPrefixOf ([] : List Char) then some 0 else none
  | c :: rest =>
    if pat.isPrefixOf ((c :: rest).map lowerChar) then some 0
    else (findCI pat rest).map (· + 1)

/-- Index of the first `\n` that (after optional whitespace) is followed by
the case-insensitive marker `Si preguntan:` — the lookahead that ends a
block's answer in the source regex. -/
def findNLMarker : List Char → Option Nat
  | [] => none
  | c :: rest =>
    if c == '\n' &&
        ("si preguntan:".data.isPrefixOf
          ((rest.dropWhile isPySpace).map lowerChar)) then some 0
    else (findNLMarker rest).map (· + 1)

/-- The sample utterances of one block: split the question part on
`\s*/\s*|\n`, keep parts that are non-blank, strip `" \t\r\n.?!¡¿"`. -/
def splitUtterances (qpart : String) : List String :=
  ((splitRuns (fun c => !(c == '/' || c == '\n')) qpart.data).filter
    (fun l => pstrip ⟨l⟩ ≠ "")).map (fun l => stripCharsBoth faqStripSet ⟨l⟩)

/-- Fuel-indexed worker for `_faq_parse_blocks`; fuel (initially the text
length) only bounds the recursion, each step consumes at least the
`Si preguntan:` marker. -/
def parseBlocksFuel : Nat → List Char → List (List String × String)
  | 0, _ => []
  | fuel + 1, text =>
    match findCI ("si preguntan:".data) text with
    | none => []
    | some i =>
      match findCI ("respuesta:".data) (text.drop (i + 13)) with
      | none => []
      | some j =>
        match findNLMarker ((text.drop (i + 13)).drop (j + 10)) with
        | none =>
          if splitUtterances (pstrip ⟨(text.drop (i + 13)).take j⟩) ≠ [] ∧
              pstrip ⟨(text.drop (i + 13)).drop (j + 10)⟩ ≠ "" then
            [(splitUtterances (pstrip ⟨(text.drop (i + 13)).take j⟩),
              pstrip ⟨(text.drop (i + 13)).drop (j + 10)⟩)]
          else []
        | some k =>
          if splitUtterances (pstrip ⟨(text.drop (i + 13)).take j⟩) ≠ [] ∧
              pstrip ⟨((text.drop (i + 13)).drop (j + 10)).take k⟩ ≠ "" then
            (splitUtterances (pstrip ⟨(text.drop (i + 13)).take j⟩),
              pstrip ⟨((text.drop (i + 13)).drop (j + 10)).take k⟩) ::
              parseBlocksFuel fuel (((text.drop (i + 13)).drop (j + 10)).drop k)
          else parseBlocksFuel fuel (((text.drop (i + 13)).drop (j + 10)).drop k)

/-- Source `_faq_parse_blocks`: the `(utterances, answer)` blocks matched
by `Si preguntan: ... Respuesta: ...` up to the next block marker. -/
def _faq_parse_blocks (faq_text : String) : List (List String × String) :=
  if faq_text = "" then []
  else parseBlocksFuel (pstrip faq_text).data.length (pstrip faq_text).data

/-- Token-overlap score of one utterance against the query token set:
`|intersection| / max(1, |utterance tokens|)`. -/
def faqScore (qtok utok : Finset String) : ℚ :=
  ((qtok ∩ utok).card : ℚ) / ((max 1 utok.card : ℕ) : ℚ)

/-- One utterance of the best-score scan of `answer_from_faq`. -/
def faqScanUtterance (qtok : Finset String) (ans : String)
    (acc : ℚ × Option String) (u : String) : ℚ × Option String :=
  if (_faq_tokens u).toFinset = ∅ then acc
  else if faqScore qtok ((_faq_tokens u).toFinset) > acc.1 then
    (faqScore qtok ((_faq_tokens u).toFinset), some ans)
  else acc

/-- One block of the best-score scan. -/
def faqBestStep (qtok : Finset String) (acc : ℚ × Option String)
    (ua : List String × String) : ℚ × Option String :=
  ua.1.foldl (faqScanUtterance qtok ua.2) acc

/-- Best score and its answer across all blocks (the scan loop of
`answer_from_faq`, strict improvement only). -/
def faqBest (blocks : List (List String × String)) (qtok : Finset String) :
    ℚ × Option String :=
  blocks.foldl (faqBestStep qtok) (0, none)

/-- The parsed FAQ blocks of a row. -/
def faqBlocksOf (row : Row) : List (List String × String) :=
  _faq_parse_blocks (pstrip (rowGet row "FAQ"))

/-- The query token set of a message. -/
def qtokOf (t : String) : Finset String :=
  (_faq_tokens t).toFinset

/-- Best (score, answer) of a row against a message. -/
def bestFaqOf (row : Row) (t : String) : ℚ × Option String :=
  faqBest (faqBlocksOf row) (qtokOf t)

/-- Source `answer_from_faq`. -/
def answer_from_faq (row : Row) (user_text : String) : Option String :=
  if pstrip (rowGet row "FAQ") = "" then none
  else if faqBlocksOf row = [] then none
  else if qtokOf user_text = ∅ then none
  else if (bestFaqOf row user_text).1 ≥ 45/100 ∨
      ((bestFaqOf row user_text).1 ≥ 30/100 ∧ 2 ≤ (qtokOf user_text).card) then
    ((bestFaqOf row user_text).2).map (fun a => "Claro 😊 " ++ a)
  else none

/-- Source `answer_from_faq_global`: first row with a FAQ answer. -/
def answer_from_faq_global (rows : List Row) (user_text : String) :
    Option String :=
  rows.findSome? (fun r => answer_from_faq r user_text)

lemma foldl_preserve {α β : Type} {P : β → Prop} {f : β → α → β}
    (hf : ∀ b a, P b → P (f b a)) :
    ∀ (l : List α) (b : β), P b → P (l.foldl f b) := by
  intro l
  induction l with
  | nil => intro b hb; exact hb
  | cons a rest ih =>
    intro b hb
    exact ih _ (hf b a hb)

lemma faqScore_nonneg (q u : Finset String) : 0 ≤ faqScore q u := by
  unfold faqScore
  exact div_nonneg (Nat.cast_nonneg _) (Nat.cast_nonneg _)

lemma faqScan_inv {q : Finset String} {ans : String} {acc : ℚ × Option String}
    {u : String} (h : 0 ≤ acc.1 ∧ (acc.2 = none → acc.1 = 0)) :
    0 ≤ (faqScanUtterance q ans acc u).1 ∧
      ((faqScanUtterance q ans acc u).2 = none →
        (faqScanUtterance q ans acc u).1 = 0) := by
  unfold faqScanUtterance
  split_ifs with h1 h2
  · exact h
  · exact ⟨faqScore_nonneg _ _, fun h' => by simp at h'⟩
  · exact h

lemma faqBest_inv (blocks : List (List String × String)) (q : Finset String) :
    0 ≤ (faqBest blocks q).1 ∧
      ((faqBest blocks q).2 = none → (faqBest blocks q).1 = 0) := by
  unfold faqBest
  refine @foldl_preserve _ _
    (fun acc => 0 ≤ acc.1 ∧ (acc.2 = none → acc.1 = 0)) _
    ?_ blocks ((0 : ℚ), (none : Option String)) ⟨le_refl 0, fun _ => rfl⟩
  intro acc ua hacc
  unfold faqBestStep
  exact @foldl_preserve _ _
    (fun acc => 0 ≤ acc.1 ∧ (acc.2 = none → acc.1 = 0)) _
    (fun b u hb => faqScan_inv hb) ua.1 acc hacc

lemma faqScan_fst_le (q : Finset String) (ans : String)
    (acc : ℚ × Option String) (u : String) :
    acc.1 ≤ (faqScanUtterance q ans acc u).1 := by
  unfold faqScanUtterance
  split_ifs with h1 h2
  · exact le_refl _
  · exact le_of_lt h2
  · exact le_refl _

lemma foldl_scan_fst_le (q : Finset String) (ans : String) :
    ∀ (us : List String) (acc : ℚ × Option String),
      acc.1 ≤ (us.foldl (faqScanUtterance q ans) acc).1 := by
  intro us
  induction us with
  | nil => intro acc; exact le_refl _
  | cons u rest ih =>
    intro acc
    exact le_trans (faqScan_fst_le q ans acc u) (ih _)

lemma foldl_step_fst_le (q : Finset String) :
    ∀ (blocks : List (List String × String)) (acc : ℚ × Option String),
      acc.1 ≤ (blocks.foldl (faqBestStep q) acc).1 := by
  intro blocks
  induction blocks with
  | nil => intro acc; exact le_refl _
  | cons ua rest ih =>
    intro acc
    refine le_trans ?_ (ih _)
    exact foldl_scan_fst_le q ua.2 ua.1 acc

lemma faqScan_attains (q : Finset String) (ans : String)
    (acc : ℚ × Option String) (u : String)
    (hu : (_faq_tokens u).toFinset ≠ ∅) :
    faqScore q ((_faq_tokens u).toFinset) ≤ (faqScanUtterance q ans acc u).1 := by
  unfold faqScanUtterance
  rw [if_neg hu]
  split_ifs with h
  · exact le_refl _
  · exact le_of_not_lt h

lemma foldl_scan_attains (q : Finset String) (ans : String) {us : List String}
    {u : String} (hmem : u ∈ us) (hu : (_faq_tokens u).toFinset ≠ ∅)
    (acc : ℚ × Option String) :
    faqScore q ((_faq_tokens u).toFinset) ≤
      (us.foldl (faqScanUtterance q ans) acc).1 := by
  obtain ⟨s, t, rfl⟩ := List.append_of_mem hmem
  rw [List.foldl_append, List.foldl_cons]
  exact le_trans (faqScan_attains q ans _ u hu) (foldl_scan_fst_le q ans t _)

lemma faqBest_attains {blocks : List (List String × String)}
    (q : Finset String) {us : List String} {ans u : String}
    (hblock : (us, ans) ∈ blocks) (hmem : u ∈ us)
    (hu : (_faq_tokens u).toFinset ≠ ∅) :
    faqScore q ((_faq_tokens u).toFinset) ≤ (faqBest blocks q).1 := by
  obtain ⟨s, t, rfl⟩ := List.append_of_mem hblock
  unfold faqBest
  rw [List.foldl_append, List.foldl_cons]
  refine le_trans ?_ (foldl_step_fst_le q t _)
  exact foldl_scan_attains q ans hmem hu _

lemma foldl_scan_le {q : Finset String} {ans : String} {B : ℚ} :
    ∀ (us : List String) (acc : ℚ × Option String), acc.1 ≤ B →
      (∀ u ∈ us, faqScore q ((_faq_tokens u).toFinset) ≤ B) →
      (us.foldl (faqScanUtterance q ans) acc).1 ≤ B := by
  intro us
  induction us with
  | nil => intro acc hacc _; exact hacc
  | cons u rest ih =>
    intro acc hacc hall
    refine ih _ ?_ (fun v hv => hall v (List.mem_cons_of_mem u hv))
    unfold faqScanUtterance
    split_ifs with h1 h2
    · exact hacc
    · exact hall u (List.mem_cons_self u rest)
    · exact hacc

lemma faqBest_le {q : Finset String} {B : ℚ} (h0 : (0 : ℚ) ≤ B)
    {blocks : List (List String × String)}
    (hall : ∀ us ans u, (us, ans) ∈ blocks → u ∈ us →
      faqScore q ((_faq_tokens u).toFinset) ≤ B) :
    (faqBest blocks q).1 ≤ B := by
  unfold faqBest
  suffices haux : ∀ (bs : List (List String × String))
      (acc : ℚ × Option String), acc.1 ≤ B →
      (∀ us ans u, (us, ans) ∈ bs → u ∈ us →
        faqScore q ((_faq_tokens u).toFinset) ≤ B) →
      (bs.foldl (faqBestStep q) acc).1 ≤ B by
    exact haux blocks (0, none) h0 hall
  intro bs
  induction bs with
  | nil => intro acc hacc _; exact hacc
  | cons ua rest ih =>
    intro acc hacc hall'
    rw [List.foldl_cons]
    refine ih _ ?_ (fun us ans u hm hu =>
      hall' us ans u (List.mem_cons_of_mem ua hm) hu)
    unfold faqBestStep
    exact foldl_scan_le ua.1 acc hacc
      (fun u hu => hall' ua.1 ua.2 u (List.mem_cons_self ua rest) hu)

lemma faqBest_empty_q (blocks : List (List String × String)) :
    faqBest blocks ∅ = (0, none) := by
  unfold faqBest
  refine @foldl_preserve _ _ (fun acc => acc = (0, none)) _
    ?_ blocks (0, none) rfl
  intro acc ua hacc
  subst hacc
  unfold faqBestStep
  refine @foldl_preserve _ _ (fun acc => acc = (0, none)) _
    ?_ ua.1 (0, none) rfl
  intro b u hb
  subst hb
  unfold faqScanUtterance
  split_ifs with h1 h2
  · rfl
  · exfalso
    have : faqScore ∅ ((_faq_tokens u).toFinset) = 0 := by
      unfold faqScore
      simp
    rw [this] at h2
    exact absurd h2 (lt_irrefl 0)
  · rfl

lemma bestFaqOf_of_blocks_nil {row : Row} (h : faqBlocksOf row = [])
    (text : String) : bestFaqOf row text = (0, none) := by
  rw [bestFaqOf, h]
  rfl

/-- The acceptance condition of `answer_from_faq`, isolated. -/
lemma answer_from_faq_isSome_iff (row : Row) (text : String) :
    (answer_from_faq row text).isSome = true ↔
      ((bestFaqOf row text).1 ≥ 45/100 ∨
        ((bestFaqOf row text).1 ≥ 30/100 ∧ 2 ≤ (qtokOf text).card)) := by
  unfold answer_from_faq
  by_cases h1 : pstrip (rowGet row "FAQ") = ""
  · rw [if_pos h1]
    have hb : faqBlocksOf row = [] := by
      rw [faqBlocksOf, h1]
      rfl
    rw [bestFaqOf_of_blocks_nil hb]
    constructor
    · intro h
      simp at h
    · intro h
      rcases h with h | ⟨h, _⟩ <;> norm_num at h
  · rw [if_neg h1]
    by_cases h2 : faqBlocksOf row = []
    · rw [if_pos h2, bestFaqOf_of_blocks_nil h2]
      constructor
      · intro h
        simp at h
      · intro h
        rcases h with h | ⟨h, _⟩ <;> norm_num at h
    · rw [if_neg h2]
      by_cases h3 : qtokOf text = ∅
      · rw [if_pos h3]
        have hbz : bestFaqOf row text = (0, none) := by
          rw [bestFaqOf, h3]
          exact faqBest_empty_q _
        rw [hbz, h3]
        constructor
        · intro h
          simp at h
        · intro h
          rcases h with h | ⟨h, _⟩ <;> norm_num at h
      · rw [if_neg h3]
        by_cases h4 : (bestFaqOf row text).1 ≥ 45/100 ∨
            ((bestFaqOf row text).1 ≥ 30/100 ∧ 2 ≤ (qtokOf text).card)
        · rw [if_pos h4]
          simp only [Option.isSome_map']
          constructor
          · intro _
            exact h4
          · intro _
            cases hb2 : (bestFaqOf row text).2 with
            | some b => rfl
            | none =>
              exfalso
              have hz := (faqBest_inv (faqBlocksOf row) (qtokOf text)).2 hb2
              rw [bestFaqOf] at h4
              rw [hz] at h4
              rcases h4 with h | ⟨h, _⟩
              · norm_num at h
              · norm_num at h
        · rw [if_neg h4]
          simp [h4]

/-- Claim C5: `answer_from_faq` accepts exactly when the best token-overlap
score reaches 0.45, or reaches 0.30 with a query of at least two tokens;
what it returns is the best-scoring utterance's answer (prefixed); a query
containing all tokens of a 2-token utterance of some block is always
accepted (its score is 1); and a 1-token query against blocks whose
utterances all have at least 4 tokens (so every score is at most 0.25) is
always rejected. -/
theorem claim_C5 :
    (∀ (row : Row) (text : String),
      (answer_from_faq row text).isSome = true ↔
        ((bestFaqOf row text).1 ≥ 45/100 ∨
          ((bestFaqOf row text).1 ≥ 30/100 ∧ 2 ≤ (qtokOf text).card))) ∧
    (∀ (row : Row) (text a : String), answer_from_faq row text = some a →
      ∃ b, (bestFaqOf row text).2 = some b ∧ a = "Claro 😊 " ++ b) ∧
    (∀ (row : Row) (text : String) (us : List String) (ans u : String),
      (us, ans) ∈ faqBlocksOf row → u ∈ us →
      ((_faq_tokens u).toFinset).card = 2 →
      (_faq_tokens u).toFinset ⊆ qtokOf text →
      (answer_from_faq row text).isSome = true) ∧
    (∀ (row : Row) (text : String), (qtokOf text).card = 1 →
      (∀ us ans u, (us, ans) ∈ faqBlocksOf row → u ∈ us →
        4 ≤ ((_faq_tokens u).toFinset).card) →
      answer_from_faq row text = none) := by
  refine ⟨answer_from_faq_isSome_iff, ?_, ?_, ?_⟩
  · intro row text a h
    unfold answer_from_faq at h
    split_ifs at h with h1 h2 h3 h4
    rcases Option.map_eq_some'.mp h with ⟨b, hb, hab⟩
    exact ⟨b, hb, hab.symm⟩
  · intro row text us ans u hblock hmem hcard hsub
    have hne : (_faq_tokens u).toFinset ≠ ∅ := by
      intro h
      rw [h] at hcard
      simp at hcard
    have hscore : faqScore (qtokOf text) ((_faq_tokens u).toFinset) = 1 := by
      unfold faqScore
      rw [Finset.inter_eq_right.mpr hsub, hcard]
      norm_num
    have hbest : (1 : ℚ) ≤ (bestFaqOf row text).1 := by
      rw [← hscore]
      exact faqBest_attains (qtokOf text) hblock hmem hne
    rw [answer_from_faq_isSome_iff]
    left
    linarith
  · intro row text hq hall
    have hbound : (bestFaqOf row text).1 ≤ 1/4 := by
      refine faqBest_le (by norm_num) ?_
      intro us ans u hblock hmem
      have hcard := hall us ans u hblock hmem
      unfold faqScore
      have hnum : ((qtokOf text ∩ (_faq_tokens u).toFinset).card : ℚ) ≤ 1 := by
        have h1 : (qtokOf text ∩ (_faq_tokens u).toFinset).card ≤
            (qtokOf text).card :=
          Finset.card_le_card (Finset.inter_subset_left)
        rw [hq] at h1
        exact_mod_cast h1
      have hden : (4 : ℚ) ≤ ((max 1 ((_faq_tokens u).toFinset).card : ℕ) : ℚ) := by
        have : 4 ≤ max 1 ((_faq_tokens u).toFinset).card :=
          le_trans hcard (le_max_right _ _)
        exact_mod_cast this
      exact div_le_div₀ (by norm_num) hnum (by norm_num) hden
    cases hans : answer_from_faq row text with
    | none => rfl
    | some a =>
      exfalso
      have hsome : (answer_from_faq row text).isSome = true := by
        rw [hans]
        rfl
      rcases (answer_from_faq_isSome_iff row text).mp hsome with h | ⟨h, hc⟩
      · linarith
      · rw [hq] at hc
        norm_num at hc

/-- Concrete instantiations of `claim_C5`: a query containing both tokens
of the 2-token utterance is accepted; a 1-token query against a 4-token
utterance is rejected. -/
theorem claim_C5_witness :
    (answer_from_faq [("FAQ", "Si preguntan: excel bueno Respuesta: Si")]
        "excel bueno").isSome = true ∧
    answer_from_faq
        [("FAQ",
          "Si preguntan: empiezan clases sincronicas presenciales Respuesta: Marzo")]
        "clases" = none :=
  ⟨claim_C5.2.2.1 [("FAQ", "Si preguntan: excel bueno Respuesta: Si")]
      "excel bueno" ["excel bueno"] "Si" "excel bueno"
      (by decide) (by decide) (by decide) (by decide),
   claim_C5.2.2.2
      [("FAQ",
        "Si preguntan: empiezan clases sincronicas presenciales Respuesta: Marzo")]
      "clases" (by decide)
      (by
        intro us ans u hb hu
        have hblocks : faqBlocksOf
            [("FAQ",
              "Si preguntan: empiezan clases sincronicas presenciales Respuesta: Marzo")] =
            [(["empiezan clases sincronicas presenciales"], "Marzo")] := by
          decide
        rw [hblocks, List.mem_singleton] at hb
        injection hb with h1 h2
        subst h1
        rw [List.mem_singleton] at hu
        subst hu
        decide)⟩

/-! ## Course resolution (`find_course`) -/

/-- The word class `[a-z0-9áéíóúñ]` of the course-matching tokenizers. -/
def isWordCharES (c : Char) : Bool :=
  isAsciiWordChar c || c == 'á' || c == 'é' || c == 'í' || c == 'ó' ||
    c == 'ú' || c == 'ñ'

/-- Query tokens of `_best_row_by_query`: words of the folded query of
length at least 3, except `curso`/`cursos`, as a set. -/
def _query_words (q_fold : String) : Finset String :=
  (((splitRuns isWordCharES q_fold.data).map (fun l => (⟨l⟩ : String))).filter
    (fun w => decide (3 ≤ w.length) && !(w == "curso" || w == "cursos"))).toFinset

/-- Title tokens of `_best_row_by_query`: words of the lowercased title,
length at least 3, except `curso`/`cursos`, each folded, as a set. -/
def _name_tokens (name : String) : Finset String :=
  (((((splitRuns isWordCharES (lowerStr name).data).map
      (fun l => (⟨l⟩ : String))).filter
    (fun w => decide (3 ≤ w.length) && !(w == "curso" || w == "cursos"))).map
      foldStr)).toFinset

/-- Token-overlap score of a row against the query word set. -/
def _token_score (words : Finset String) (r : Row) : ℕ :=
  (words ∩ _name_tokens (rowGet r "Curso")).card

/-- The strictly-improving scan of the token stage (first of equal scores
wins). -/
def _best_token_fold (rows : List Row) (words : Finset String) :
    ℕ × Option Row :=
  rows.foldl (fun acc r =>
    if _token_score words r > acc.1 then (_token_score words r, some r)
    else acc) (0, none)

/-- Source `_best_row_by_query`: title contains query, then query contains
title, then best token overlap if at least 1. -/
def _best_row_by_query (rows : List Row) (q_fold : String) : Option Row :=
  match rows.find? (fun r => (pstrip (rowGet r "Curso") != "") &&
      substr q_fold (foldStr (pstrip (rowGet r "Curso")))) with
  | some r => some r
  | none =>
    match rows.find? (fun r => (pstrip (rowGet r "Curso") != "") &&
        substr (foldStr (pstrip (rowGet r "Curso"))) q_fold) with
    | some r => some r
    | none =>
      if 1 ≤ (_best_token_fold rows (_query_words q_fold)).1 then
        (_best_token_fold rows (_query_words q_fold)).2
      else none

/-- The alternation of the keyword-prefix regex
`(?:info|informacion|información|precio|horarios?|pdf|modalidad|metodolog(?:ía|ia))`,
in the order a backtracking engine tries it at one position. -/
def kwAlts : List String :=
  ["info", "informacion", "información", "precio", "horarios", "horario",
   "pdf", "modalidad", "metodología", "metodologia"]

/-- One-position attempt of the keyword regex `kw\s+(.+)$`: a keyword, a
non-empty whitespace run, then the non-empty remainder, which is captured.
The `(.+)$` tail is modelled for single-line remainders (a remainder
containing a newline does not match, since `.` does not cross lines). -/
def kwMatchAt (l : List Char) : Option (List Char) :=
  kwAlts.findSome? (fun kw =>
    if kw.data.isPrefixOf l then
      if (l.drop kw.data.length).takeWhile isPySpace ≠ [] ∧
          (l.drop kw.data.length).dropWhile isPySpace ≠ [] ∧
          ¬(((l.drop kw.data.length).dropWhile isPySpace).contains '\n') then
        some ((l.drop kw.data.length).dropWhile isPySpace)
      else none
    else none)

/-- Leftmost match of the keyword regex (the `re.search` scan). -/
def kwSearch : List Char → Option (List Char)
  | [] => none
  | c :: rest =>
    match kwMatchAt (c :: rest) with
    | some rem => some rem
    | none => kwSearch rest

/-- Source `find_course`: alias hit first (iterating the alias index in
insertion order), then the keyword-prefixed extraction, then the plain
best-row query.  The module-level `_cache['alias_idx']` is the explicit
`aliasIdx` argument. -/
def find_course (aliasIdx : List (String × Row)) (rows : List Row)
    (user_text : String) : Option Row :=
  match aliasIdx.find? (fun p => (p.1 != "") &&
      substr p.1 (foldStr user_text)) with
  | some p => some p.2
  | none =>
    match kwSearch (foldStr user_text).data with
    | some cand =>
      match _best_row_by_query rows (pstrip ⟨cand⟩) with
      | some r => some r
      | none => _best_row_by_query rows (foldStr user_text)
    | none => _best_row_by_query rows (foldStr user_text)

/-- Claim C6: when any (non-empty) alias key of the index is a substring of
the case/diacritic-folded input, `find_course` resolves through the alias
index alone — it returns the course of the first such alias in index order,
that course is one whose alias matched, and the result does not depend on
the catalog rows at all (so no title-substring or token-overlap matching
can override an alias hit). -/
theorem claim_C6 :
    ∀ (aliasIdx : List (String × Row)) (rows rows' : List Row) (text : String),
      (∃ p ∈ aliasIdx, p.1 ≠ "" ∧ substr p.1 (foldStr text) = true) →
      (find_course aliasIdx rows text =
        (aliasIdx.find? (fun p => (p.1 != "") &&
          substr p.1 (foldStr text))).map Prod.snd) ∧
      (∃ p ∈ aliasIdx, p.1 ≠ "" ∧ substr p.1 (foldStr text) = true ∧
        find_course aliasIdx rows text = some p.2) ∧
      find_course aliasIdx rows text = find_course aliasIdx rows' text := by
  intro aliasIdx rows rows' text hex
  cases hfind : aliasIdx.find? (fun p => (p.1 != "") &&
      substr p.1 (foldStr text)) with
  | none =>
    exfalso
    obtain ⟨p, hp, hne, hsub⟩ := hex
    have := List.find?_eq_none.mp hfind p hp
    simp [hne, hsub] at this
  | some q =>
    have hqmem := List.mem_of_find?_eq_some hfind
    have hqpred := List.find?_some hfind
    simp only [Bool.and_eq_true, bne_iff_ne, ne_eq] at hqpred
    refine ⟨?_, ⟨q, hqmem, hqpred.1, hqpred.2, ?_⟩, ?_⟩
    · unfold find_course
      rw [hfind]
      rfl
    · unfold find_course
      rw [hfind]
    · unfold find_course
      rw [hfind]

/-- Concrete instantiation of `claim_C6`: message `Quiero El EXCEL-PRO`
resolves through alias `excel-pro` to course `Excel Avanzado`, past a
catalog row whose title shares more tokens with the message. -/
theorem claim_C6_witness :
    find_course [("excel-pro", [("Curso", "Excel Avanzado")])]
        [[("Curso", "Quiero El Curso")]] "Quiero El EXCEL-PRO" =
      some [("Curso", "Excel Avanzado")] := by
  have h := (claim_C6 [("excel-pro", [("Curso", "Excel Avanzado")])]
      [[("Curso", "Quiero El Curso")]] [] "Quiero El EXCEL-PRO"
      (by decide)).1
  rw [h]
  decide

/-! ## Intent classification and response composition -/

/-- The twelve intent flags of `classify_intents`. -/
structure Intents where
  info : Bool
  price : Bool
  schedule : Bool
  modality : Bool
  methodology : Bool
  start : Bool
  dates : Bool
  duration : Bool
  pdf : Bool
  faq : Bool
  enroll : Bool
  recordings : Bool
deriving DecidableEq

/-- Source `INTENTS`, one keyword list per intent. -/
def INTENTS_info : List String :=
  ["info", "informacion", "información", "mas info", "más info", "detalles",
   "ficha", "sobre el curso"]

def INTENTS_price : List String :=
  ["precio", "costo", "valor", "arancel", "inversion", "inversión",
   "inscrip", "cuanto", "cuánto", "vale", "pago"]

def INTENTS_schedule : List String :=
  ["horario", "horarios", "hora", "cronograma"]

def INTENTS_modality : List String :=
  ["modalidad", "online", "virtual", "en vivo", "zoom", "meet",
   "videoconferencia"]

def INTENTS_methodology : List String :=
  ["metodologia", "metodología", "metodo", "método", "como se cursa",
   "cómo se cursa"]

def INTENTS_start : List String :=
  ["inicio", "empieza", "empiezan", "fecha de inicio"]

def INTENTS_dates : List String :=
  ["fechas", "calendario", "cronograma"]

def INTENTS_duration : List String :=
  ["duracion", "duración", "dura", "carga horaria", "horas"]

def INTENTS_pdf : List String :=
  ["pdf", "brochure", "informativo", "dossier", "folleto"]

def INTENTS_faq : List String :=
  ["faq", "preguntas", "dudas", "consulta", "general"]

def INTENTS_enroll : List String :=
  ["me interesa", "quiero inscribirme", "inscribirme", "como me inscribo",
   "cómo me inscribo", "quiero anotarme", "quiero matricularme"]

def INTENTS_recordings : List String :=
  ["grabada", "grabadas", "grabacion", "grabación", "grabaciones",
   "repeticion", "repetición", "on demand", "ondemand", "ver despues",
   "ver después", "quedan grabadas"]

/-- Source `GREETINGS`. -/
def GREETINGS : List String :=
  ["hola", "buenas", "buenos dias", "buenos días", "buenas tardes",
   "buenas noches", "hey", "que tal", "qué tal"]

/-- The character class `[a-záéíóúñ ]` of the forced-price regex. -/
def priceClassChar (c : Char) : Bool :=
  (decide ('a' ≤ c) && decide (c ≤ 'z')) || c == 'á' || c == 'é' ||
    c == 'í' || c == 'ó' || c == 'ú' || c == 'ñ' || c == ' '

/-- Tail of the forced-price regex after `precio`: some split into a
non-empty whitespace run followed by at least three class characters. -/
def priceTailMatch (u : List Char) : Bool :=
  (List.range u.length).any (fun km1 =>
    (u.take (km1 + 1)).all isPySpace &&
      decide (3 ≤ ((u.drop (km1 + 1)).takeWhile priceClassChar).length))

/-- The `re.search(r'precio\s+[a-záéíóúñ ]{3,}', ...)` test that forces the
price intent. -/
def price_regex_search (s : String) : Bool :=
  s.data.tails.any (fun t =>
    "precio".data.isPrefixOf t && priceTailMatch (t.drop 6))

/-- Source `classify_intents`: substring tests per keyword list, plus the
forced-price regex. -/
def classify_intents (body_lower : String) : Intents where
  info := _has_any body_lower INTENTS_info
  price := _has_any body_lower INTENTS_price || price_regex_search body_lower
  schedule := _has_any body_lower INTENTS_schedule
  modality := _has_any body_lower INTENTS_modality
  methodology := _has_any body_lower INTENTS_methodology
  start := _has_any body_lower INTENTS_start
  dates := _has_any body_lower INTENTS_dates
  duration := _has_any body_lower INTENTS_duration
  pdf := _has_any body_lower INTENTS_pdf
  faq := _has_any body_lower INTENTS_faq
  enroll := _has_any body_lower INTENTS_enroll
  recordings := _has_any body_lower INTENTS_recordings

/-- Source `detect_intent_enroll` (its own keyword list in the source). -/
def detect_intent_enroll (body_lower : String) : Bool :=
  _has_any body_lower
    ["me interesa", "quiero inscribirme", "inscribirme", "como me inscribo",
     "cómo me inscribo", "quiero anotarme", "quiero matricularme"]

/-- Configured brand/bot/advisor values (source defaults). -/
def BRAND_NAME : String := "Motiva Educación"

def BOT_NAME : String := "Moti"

def ADVISOR_E164 : String := "+59162723944"

def ADVISOR_WA_LINK : String :=
  "https://wa.me/" ++ (⟨replaceAll ("+".data) ADVISOR_E164.data⟩ : String)

/-- Python `a or b` on strings. -/
def orS (a b : String) : String :=
  if a = "" then b else a

/-- `price_col.replace('Inscripción ', '')`. -/
def stripInscripcion (col : String) : String :=
  ⟨replaceAll ("Inscripción ".data) col.data⟩

/-- Source `course_card`: the full course sheet. -/
def course_card (row : Row) (from_number : String) (body_lower : String) :
    String :=
  String.intercalate "\n\n"
    (["Hola, gracias por contactarnos 🙌 Soy *" ++ BOT_NAME ++
        "* (asistente de " ++ BRAND_NAME ++ ").",
      "Te paso la información del curso:"]
      ++ (if rowGet row "Curso" ≠ "" then
        ["🎓 *" ++ rowGet row "Curso" ++ "*"] else [])
      ++ (if rowGet row "Texto Principal" ≠ "" then
        [rowGet row "Texto Principal"] else [])
      ++ (if rowGet row "Fecha de Inicio" ≠ "" then
        ["📅 *Inicio:* " ++ rowGet row "Fecha de Inicio"] else [])
      ++ (if rowGet row "Fechas de clases" ≠ "" then
        ["🗓️ *Fechas de clases:* " ++ rowGet row "Fechas de clases"] else [])
      ++ (if rowGet row "Duración" ≠ "" then
        ["⏳ *Duración:* " ++ rowGet row "Duración"] else [])
      ++ (if rowGet row "Horarios" ≠ "" then
        ["🕒 *Horarios:* " ++ rowGet row "Horarios"] else [])
      ++ (if orS (rowGet row "Modalidad") (rowGet row "modalidad") ≠ "" then
        ["🎥 *Modalidad:* " ++
          orS (rowGet row "Modalidad") (rowGet row "modalidad")] else [])
      ++ (if orS (rowGet row "Metodología")
            (orS (rowGet row "Metodologia") (rowGet row "metodología")) ≠ ""
        then ["🧩 *Metodología:* " ++ orS (rowGet row "Metodología")
            (orS (rowGet row "Metodologia") (rowGet row "metodología"))]
        else [])
      ++ (if orS (rowGet row (pick_price_column_from_text body_lower
              from_number)) (rowGet row "Inscripción Resto Países") ≠ "" then
        ["💳 *Inscripción (" ++ stripInscripcion
            (pick_price_column_from_text body_lower from_number) ++ "):* " ++
          orS (rowGet row (pick_price_column_from_text body_lower from_number))
            (rowGet row "Inscripción Resto Países")] else [])
      ++ (if rowGet row "Link PDF" ≠ "" then
        ["📄 *PDF informativo:* " ++ rowGet row "Link PDF"] else [])
      ++ ["Si deseas *inscribirte*, dime \"*me interesa*\" y te conecto con un asesor humano 🤝"])

/-- Source `course_brief`: title, main text, PDF, or a fallback line. -/
def course_brief (row : Row) : String :=
  orS (String.intercalate "\n\n"
    ((((if pstrip (rowGet row "Curso") ≠ "" then
          ["🎓 *" ++ pstrip (rowGet row "Curso") ++ "*"] else [])
      ++ (if pstrip (rowGet row "Texto Principal") ≠ "" then
          [pstrip (rowGet row "Texto Principal")] else [])
      ++ (if pstrip (rowGet row "Link PDF") ≠ "" then
          ["📄 " ++ pstrip (rowGet row "Link PDF")] else []))).filter
        (fun p => p ≠ "")))
    "No encontré información del curso."

/-- The first eight answer blocks of `answer_for_intents` (price, schedule,
modality, methodology, start, dates, duration, pdf), in source order. -/
def _early_answers (row : Row) (intents : Intents)
    (body_lower from_number : String) : List String :=
  (if intents.price then
    [if orS (rowGet row (pick_price_column_from_text body_lower from_number))
        (rowGet row "Inscripción Resto Países") ≠ "" then
      "💳 *Inscripción (" ++ stripInscripcion
          (pick_price_column_from_text body_lower from_number) ++ "):* " ++
        orS (rowGet row (pick_price_column_from_text body_lower from_number))
          (rowGet row "Inscripción Resto Países")
     else "💳 Para darte el valor exacto, indícame tu país (ej.: \"precio Bolivia\")."]
   else [])
  ++ (if intents.schedule ∧ pstrip (rowGet row "Horarios") ≠ "" then
      ["🕒 *Horarios:* " ++ pstrip (rowGet row "Horarios")] else [])
  ++ (if intents.modality then
      [if pstrip (orS (rowGet row "Modalidad") (rowGet row "modalidad")) ≠ ""
       then "🎥 *Modalidad:* " ++
          pstrip (orS (rowGet row "Modalidad") (rowGet row "modalidad"))
       else "🎥 Modalidad en vivo por videoconferencia (clases síncronas)."]
     else [])
  ++ (if intents.methodology ∧ pstrip (orS (rowGet row "Metodología")
        (orS (rowGet row "Metodologia") (rowGet row "metodología"))) ≠ "" then
      ["🧩 *Metodología:* " ++ pstrip (orS (rowGet row "Metodología")
        (orS (rowGet row "Metodologia") (rowGet row "metodología")))] else [])
  ++ (if intents.start ∧ pstrip (rowGet row "Fecha de Inicio") ≠ "" then
      ["📅 *Inicio:* " ++ pstrip (rowGet row "Fecha de Inicio")] else [])
  ++ (if intents.dates ∧ pstrip (rowGet row "Fechas de clases") ≠ "" then
      ["🗓️ *Fechas de clases:* " ++ pstrip (rowGet row "Fechas de clases")]
     else [])
  ++ (if intents.duration ∧ pstrip (rowGet row "Duración") ≠ "" then
      ["⏳ *Duración:* " ++ pstrip (rowGet row "Duración")] else [])
  ++ (if intents.pdf ∧ pstrip (rowGet row "Link PDF") ≠ "" then
      ["📄 *PDF informativo:* " ++ pstrip (rowGet row "Link PDF")] else [])

/-- The recordings answer: the FAQ match if there is one, else the stock
line. -/
def _recordings_answer (row : Row) (body_lower : String) : String :=
  match answer_from_faq row body_lower with
  | some f => f
  | none => "Sí 😊 Las clases quedan grabadas para que puedas verlas luego."

/-- Answer list after the `recordings` block (appended only when nothing
was answered yet — the source's `and not answers` guard). -/
def _answers_after_recordings (row : Row) (intents : Intents)
    (body_lower from_number : String) : List String :=
  if intents.recordings ∧ _early_answers row intents body_lower from_number = []
  then _early_answers row intents body_lower from_number ++
    [_recordings_answer row body_lower]
  else _early_answers row intents body_lower from_number

/-- Answer list after the `faq` block (again guarded by `and not answers`,
and by a non-empty FAQ cell). -/
def _answers_after_faq (row : Row) (intents : Intents)
    (body_lower from_number : String) : List String :=
  if intents.faq ∧
      _answers_after_recordings row intents body_lower from_number = [] ∧
      pstrip (rowGet row "FAQ") ≠ "" then
    _answers_after_recordings row intents body_lower from_number ++
      ["ℹ️ *FAQ:* " ++ pstrip (rowGet row "FAQ")]
  else _answers_after_recordings row intents body_lower from_number

/-- Answer list after the `info` block (guarded by `and not answers`). -/
def _answers_final (row : Row) (intents : Intents)
    (body_lower from_number : String) : List String :=
  if intents.info ∧ _answers_after_faq row intents body_lower from_number = []
  then _answers_after_faq row intents body_lower from_number ++
    [course_card row from_number body_lower]
  else _answers_after_faq row intents body_lower from_number

/-- Source `answer_for_intents`: the joined answer blocks, with a final
FAQ attempt when no block produced anything. -/
def answer_for_intents (row : Row) (intents : Intents)
    (body_lower from_number : String) : String :=
  if _answers_final row intents body_lower from_number = [] then
    (answer_from_faq row body_lower).getD ""
  else
    String.intercalate "\n\n"
      ((_answers_final row intents body_lower from_number).filter
        (fun a => a ≠ ""))

lemma append_ne_empty_left (a b : String) (h : a.length ≠ 0) :
    a ++ b ≠ "" := by
  intro he
  have hlen := congrArg String.length he
  rw [String.length_append] at hlen
  simp at hlen
  omega

lemma answer_from_faq_ne_empty {row : Row} {body a : String}
    (h : answer_from_faq row body = some a) : a ≠ "" := by
  unfold answer_from_faq at h
  split_ifs at h with h1 h2 h3 h4
  rcases Option.map_eq_some'.mp h with ⟨b, _, hab⟩
  rw [← hab]
  exact append_ne_empty_left _ _ (by decide)

lemma _recordings_answer_ne_empty (row : Row) (body : String) :
    _recordings_answer row body ≠ "" := by
  unfold _recordings_answer
  cases h : answer_from_faq row body with
  | none => decide
  | some f => exact answer_from_faq_ne_empty h

lemma intercalate_singleton (s x : String) :
    String.intercalate s [x] = x := by
  rfl

/-- Claim C3 (amended): the detected-intent answers for price, schedule,
modality, methodology, start, dates, duration and pdf are concatenated in
that fixed order (`_early_answers`); the recordings and faq intents are
answered only when none of those eight produced anything — recordings
first, then faq — so a message whose intents include faq and recordings
together with an earlier answered intent gets only the earlier answers,
and neither the faq text nor a recordings answer appears. -/
theorem claim_C3 :
    (∀ (row : Row) (intents : Intents) (body from_number : String),
      _early_answers row intents body from_number ≠ [] →
      answer_for_intents row intents body from_number =
        String.intercalate "\n\n"
          ((_early_answers row intents body from_number).filter
            (fun a => a ≠ ""))) ∧
    (∀ (row : Row) (intents : Intents) (body from_number : String),
      _early_answers row intents body from_number = [] →
      intents.recordings = true →
      answer_for_intents row intents body from_number =
        _recordings_answer row body) ∧
    (∀ (row : Row) (intents : Intents) (body from_number : String),
      _early_answers row intents body from_number = [] →
      intents.recordings = false → intents.faq = true →
      pstrip (rowGet row "FAQ") ≠ "" →
      answer_for_intents row intents body from_number =
        "ℹ️ *FAQ:* " ++ pstrip (rowGet row "FAQ")) := by
  refine ⟨?_, ?_, ?_⟩
  · intro row intents body from_number h
    have h1 : _answers_after_recordings row intents body from_number =
        _early_answers row intents body from_number := by
      unfold _answers_after_recordings
      rw [if_neg (fun hc => h hc.2)]
    have h2 : _answers_after_faq row intents body from_number =
        _early_answers row intents body from_number := by
      unfold _answers_after_faq
      rw [h1, if_neg (fun hc => h hc.2.1)]
    have h3 : _answers_final row intents body from_number =
        _early_answers row intents body from_number := by
      unfold _answers_final
      rw [h2, if_neg (fun hc => h hc.2)]
    unfold answer_for_intents
    rw [h3, if_neg h]
  · intro row intents body from_number h0 hrec
    have h1 : _answers_after_recordings row intents body from_number =
        [_recordings_answer row body] := by
      unfold _answers_after_recordings
      rw [if_pos ⟨hrec, h0⟩, h0]
      rfl
    have h2 : _answers_after_faq row intents body from_number =
        [_recordings_answer row body] := by
      unfold _answers_after_faq
      rw [h1, if_neg (fun hc => List.cons_ne_nil _ _ hc.2.1)]
    have h3 : _answers_final row intents body from_number =
        [_recordings_answer row body] := by
      unfold _answers_final
      rw [h2, if_neg (fun hc => List.cons_ne_nil _ _ hc.2)]
    unfold answer_for_intents
    rw [h3, if_neg (List.cons_ne_nil _ _)]
    have hne := _recordings_answer_ne_empty row body
    rw [List.filter_cons, if_pos (by simpa using hne)]
    rfl
  · intro row intents body from_number h0 hrec hfaq hfaqcell
    have h1 : _answers_after_recordings row intents body from_number =
        [] := by
      unfold _answers_after_recordings
      rw [if_neg (fun hc => by rw [hrec] at hc; exact Bool.false_ne_true hc.1),
        h0]
    have h2 : _answers_after_faq row intents body from_number =
        ["ℹ️ *FAQ:* " ++ pstrip (rowGet row "FAQ")] := by
      unfold _answers_after_faq
      rw [h1, if_pos ⟨hfaq, rfl, hfaqcell⟩]
      rfl
    have h3 : _answers_final row intents body from_number =
        ["ℹ️ *FAQ:* " ++ pstrip (rowGet row "FAQ")] := by
      unfold _answers_final
      rw [h2, if_neg (fun hc => List.cons_ne_nil _ _ hc.2)]
    unfold answer_for_intents
    rw [h3, if_neg (List.cons_ne_nil _ _)]
    have hne : "ℹ️ *FAQ:* " ++ pstrip (rowGet row "FAQ") ≠ "" :=
      append_ne_empty_left _ _ (by decide)
    rw [List.filter_cons, if_pos (by simpa using hne)]
    rfl

/-- Claim C3 as stated fails: for the message `horario preguntas grabadas`
the classifier detects schedule, faq and recordings together; the composed
answer contains only the schedule line — the faq text and any recordings
answer are absent (and in the code recordings would in any case come
before faq, not after). -/
theorem claim_C3_counterexample :
    (classify_intents "horario preguntas grabadas").schedule = true ∧
    (classify_intents "horario preguntas grabadas").faq = true ∧
    (classify_intents "horario preguntas grabadas").recordings = true ∧
    answer_for_intents [("Curso", "X"), ("Horarios", "Lun 10"), ("FAQ", "algo")]
        (classify_intents "horario preguntas grabadas")
        "horario preguntas grabadas" "+59170000000" =
      "🕒 *Horarios:* Lun 10" ∧
    substr "FAQ" "🕒 *Horarios:* Lun 10" = false ∧
    substr "algo" "🕒 *Horarios:* Lun 10" = false ∧
    substr "grabadas" "🕒 *Horarios:* Lun 10" = false := by
  refine ⟨rfl, rfl, rfl, rfl, rfl, rfl, rfl⟩

/-- Concrete instantiation of `claim_C3`: with only the schedule intent
set, the answer is exactly the joined early answers. -/
theorem claim_C3_witness :
    answer_for_intents [("Horarios", "Lun 10")]
        ⟨false, false, true, false, false, false, false, false, false,
          false, false, false⟩ "horario" "+59170" =
      String.intercalate "\n\n"
        ((_early_answers [("Horarios", "Lun 10")]
          ⟨false, false, true, false, false, false, false, false, false,
            false, false, false⟩ "horario" "+59170").filter
          (fun a => a ≠ "")) :=
  claim_C3.1 [("Horarios", "Lun 10")]
    ⟨false, false, true, false, false, false, false, false, false,
      false, false, false⟩ "horario" "+59170" (by decide)

/-! ## The webhook orchestrator

`whatsapp_webhook` takes the fetched rows, the alias index, the session
map, the sender and raw body, the time, and the outcome `sent` of the
advisor notification; it returns the reply text (the message inside the
TwiML envelope) and the session map after the request. -/

/-- Source `list_courses`. -/
def list_courses (rows : List Row) : List String :=
  (rows.filter (fun r => rowGet r "Curso" ≠ "")).map
    (fun r => pstrip (rowGet r "Curso"))

/-- The enrollment handoff reply of step 1. -/
def enroll_reply (sent : Bool) : String :=
  "¡Genial! 🙌 " ++
    (if sent then "Ya avisé a nuestro asesor ✅."
     else "Te conecto con nuestro asesor.") ++
    " En breve te escribirá.\n\nSi prefieres, contáctalo ahora:\n📲 " ++
    ADVISOR_E164 ++ "  (" ++ ADVISOR_WA_LINK ++ ")"

/-- The greeting reply of step 3. -/
def greeting_reply (rows : List Row) : String :=
  if list_courses rows ≠ [] then
    "Hola, gracias por contactarnos 🙌 Soy *" ++ BOT_NAME ++
      "*.\nIndícame el *nombre del curso* del que deseas información y te paso los detalles.\n\n*Cursos:*\n- " ++
      String.intercalate "\n- " (list_courses rows)
  else
    "Hola, gracias por contactarnos 🙌 Soy *" ++ BOT_NAME ++
      "*. Aún no encuentro cursos publicados."

/-- The advisor referral of step 5's fall-through. -/
def advisor_consult_reply : String :=
  "Para esa consulta puntual, te conecto con nuestro asesor humano 😊\n\n📲 " ++
    ADVISOR_E164 ++ "  (" ++ ADVISOR_WA_LINK ++
    ")\n\nSi quieres, también puedo pasarte la ficha completa del curso. Escribe: \"info\"."

/-- The ask-for-course reply of step 6. -/
def ask_course_reply : String :=
  "Para darte esa info al toque, indícame primero el *nombre del curso*. O si prefieres, te conecto con nuestro asesor humano 😊\n\n📲 " ++
    ADVISOR_E164 ++ "  (" ++ ADVISOR_WA_LINK ++ ")"

/-- The step-7 fallback reply. -/
def fallback_courses_reply (rows : List Row) : String :=
  if list_courses rows ≠ [] then
    "Para ayudarte mejor, dime el *nombre del curso*.\n\n*Cursos:*\n- " ++
      String.intercalate "\n- " (list_courses rows)
  else "Por ahora no encuentro cursos publicados en " ++ BRAND_NAME ++ "."

/-- Step 6's condition `any(v for k, v in intents.items() if k not in
['info','faq']) or intents.get('info') or intents.get('faq')`, i.e. any
intent at all. -/
def any_intent (i : Intents) : Bool :=
  i.info || i.price || i.schedule || i.modality || i.methodology ||
    i.start || i.dates || i.duration || i.pdf || i.faq || i.enroll ||
    i.recordings

/-- Step 2's `generic_info` test: the info intent, or no intent at all. -/
def generic_info (i : Intents) : Bool :=
  i.info || !(i.price || i.schedule || i.modality || i.methodology ||
    i.start || i.dates || i.duration || i.pdf || i.faq || i.recordings ||
    i.enroll)

/-- Steps 4-7 of the webhook (global FAQ, session context, ask/fallback). -/
def webhook_steps4to7 (rows : List Row)
    (sessions : List (String × (Row × ℤ))) (from_number body_fold : String)
    (now : ℤ) (intents : Intents) :
    String × List (String × (Row × ℤ)) :=
  match answer_from_faq_global rows body_fold with
  | some a => (a, sessions)
  | none =>
    match get_session_course sessions now from_number with
    | (some row_ctx, sessions2) =>
      if answer_for_intents row_ctx intents body_fold from_number ≠ "" then
        ("Aquí tienes:\n\n" ++
          answer_for_intents row_ctx intents body_fold from_number, sessions2)
      else
        match answer_from_faq row_ctx body_fold with
        | some a => (a, sessions2)
        | none =>
          if intents.info = true then
            (course_card row_ctx from_number body_fold, sessions2)
          else (advisor_consult_reply, sessions2)
    | (none, sessions2) =>
      if any_intent intents = true then (ask_course_reply, sessions2)
      else (fallback_courses_reply rows, sessions2)

/-- Steps 3.1-7 of the webhook (the single-course shortcuts, then the
rest). -/
def webhook_no_course (rows : List Row)
    (sessions : List (String × (Row × ℤ))) (from_number body_fold : String)
    (now : ℤ) : String × List (String × (Row × ℤ)) :=
  match rows with
  | [only] =>
    if _has_any body_fold
        ["info", "informacion", "información", "info del curso"] = true then
      (course_brief only, set_session_course sessions from_number only now)
    else if (classify_intents body_fold).price = true then
      if answer_for_intents only (classify_intents body_fold) body_fold
          from_number ≠ "" then
        ("Aquí tienes:\n\n" ++ answer_for_intents only
            (classify_intents body_fold) body_fold from_number,
         set_session_course sessions from_number only now)
      else
        webhook_steps4to7 rows
          (set_session_course sessions from_number only now) from_number
          body_fold now (classify_intents body_fold)
    else
      webhook_steps4to7 rows sessions from_number body_fold now
        (classify_intents body_fold)
  | _ =>
    webhook_steps4to7 rows sessions from_number body_fold now
      (classify_intents body_fold)

/-- Source `whatsapp_webhook` (the un-exceptional path; the top-level
`except` wrapper and the TwiML envelope are outside the model). -/
def whatsapp_webhook (rows : List Row) (aliasIdx : List (String × Row))
    (sessions : List (String × (Row × ℤ))) (from_number rawBody : String)
    (now : ℤ) (sent : Bool) : String × List (String × (Row × ℤ)) :=
  if detect_intent_enroll (foldStr (pstrip rawBody)) = true then
    match find_course aliasIdx rows (pstrip rawBody) with
    | some _ => (enroll_reply sent, sessions)
    | none =>
      (enroll_reply sent, (get_session_course sessions now from_number).2)
  else
    match (if pstrip rawBody ≠ "" then
        find_course aliasIdx rows (pstrip rawBody) else none) with
    | some row_direct =>
      if generic_info (classify_intents (foldStr (pstrip rawBody))) = true then
        (course_brief row_direct,
         set_session_course sessions from_number row_direct now)
      else if answer_for_intents row_direct
          (classify_intents (foldStr (pstrip rawBody)))
          (foldStr (pstrip rawBody)) from_number ≠ "" then
        ("Aquí tienes:\n\n" ++ answer_for_intents row_direct
            (classify_intents (foldStr (pstrip rawBody)))
            (foldStr (pstrip rawBody)) from_number,
         set_session_course sessions from_number row_direct now)
      else
        match answer_from_faq row_direct (foldStr (pstrip rawBody)) with
        | some a => (a, set_session_course sessions from_number row_direct now)
        | none =>
          (course_card row_direct from_number (foldStr (pstrip rawBody)),
           set_session_course sessions from_number row_direct now)
    | none =>
      if pstrip rawBody = "" ∨ foldStr (pstrip rawBody) ∈ GREETINGS ∨
          GREETINGS.any
            (fun g => (foldStr (pstrip rawBody)).startsWith g) = true then
        (greeting_reply rows, sessions)
      else
        webhook_no_course rows sessions from_number (foldStr (pstrip rawBody))
          now

/-- Claim C2 (amended): when the inbound message resolves a course this
turn and no enrollment keyword fired, and either the `info` intent matched
or no intent at all matched (the source's `generic_info` flag), the reply
is the course brief (title, main text, PDF link) — the FAQ-then-full-card
fallback is not consulted on this path. -/
theorem claim_C2 :
    ∀ (rows : List Row) (aliasIdx : List (String × Row))
      (sessions : List (String × (Row × ℤ))) (from_number rawBody : String)
      (now : ℤ) (sent : Bool) (row : Row),
      detect_intent_enroll (foldStr (pstrip rawBody)) = false →
      pstrip rawBody ≠ "" →
      find_course aliasIdx rows (pstrip rawBody) = some row →
      generic_info (classify_intents (foldStr (pstrip rawBody))) = true →
      (whatsapp_webhook rows aliasIdx sessions from_number rawBody now
        sent).1 = course_brief row := by
  intro rows aliasIdx sessions from_number rawBody now sent row he hb hf hg
  unfold whatsapp_webhook
  rw [if_neg (by simp [he]), if_pos hb, hf]
  dsimp only
  rw [if_pos hg]

/-- Claim C2 as stated fails: message `excel` resolves the course, no
intent matches, the course's FAQ lexical match yields an answer, yet the
reply is the course brief, not the FAQ answer (nor the full card). -/
theorem claim_C2_counterexample :
    detect_intent_enroll (foldStr (pstrip "excel")) = false ∧
    find_course []
        [[("Curso", "Excel"),
          ("FAQ", "Si preguntan: excel bueno Respuesta: Si")]]
        (pstrip "excel") =
      some [("Curso", "Excel"),
        ("FAQ", "Si preguntan: excel bueno Respuesta: Si")] ∧
    classify_intents (foldStr (pstrip "excel")) =
      ⟨false, false, false, false, false, false, false, false, false,
        false, false, false⟩ ∧
    (answer_from_faq
        [("Curso", "Excel"),
          ("FAQ", "Si preguntan: excel bueno Respuesta: Si")]
        (foldStr (pstrip "excel"))).isSome = true ∧
    (∀ b, answer_from_faq
        [("Curso", "Excel"),
          ("FAQ", "Si preguntan: excel bueno Respuesta: Si")]
        (foldStr (pstrip "excel")) = some b → b ≠ "🎓 *Excel*") ∧
    (whatsapp_webhook
        [[("Curso", "Excel"),
          ("FAQ", "Si preguntan: excel bueno Respuesta: Si")]]
        [] [] "+59170000000" "excel" 0 false).1 = "🎓 *Excel*" := by
  refine ⟨rfl, rfl, rfl, ?_, ?_, rfl⟩
  · rw [answer_from_faq_isSome_iff]
    left
    have hscore : faqScore (qtokOf (foldStr (pstrip "excel")))
        ((_faq_tokens "excel bueno").toFinset) = 1/2 := by
      unfold faqScore
      rw [show (qtokOf (foldStr (pstrip "excel")) ∩
          (_faq_tokens "excel bueno").toFinset).card = 1 from by decide]
      rw [show ((_faq_tokens "excel bueno").toFinset).card = 2 from by decide]
      norm_num
    have hbest : (1 : ℚ)/2 ≤ (bestFaqOf
        [("Curso", "Excel"),
          ("FAQ", "Si preguntan: excel bueno Respuesta: Si")]
        (foldStr (pstrip "excel"))).1 := by
      rw [← hscore]
      exact faqBest_attains _
        (show (["excel bueno"], "Si") ∈ faqBlocksOf
          [("Curso", "Excel"),
            ("FAQ", "Si preguntan: excel bueno Respuesta: Si")] from by decide)
        (show "excel bueno" ∈ ["excel bueno"] from by decide)
        (by decide)
    linarith
  · intro b hsome
    rcases Option.map_eq_some'.mp (by
      have := hsome
      unfold answer_from_faq at this
      split_ifs at this
      exact this) with ⟨c, _, hcb⟩
    rw [← hcb]
    intro hcontra
    have hh := congrArg (fun s => s.data.head?) hcontra.symm
    dsimp only at hh
    have hclaro : ("Claro 😊 " ++ c).data.head? = some 'C' := rfl
    rw [hclaro] at hh
    exact absurd hh (by decide)

/-- Concrete instantiation of `claim_C2` at the counterexample's input. -/
theorem claim_C2_witness :
    (whatsapp_webhook
        [[("Curso", "Excel"),
          ("FAQ", "Si preguntan: excel bueno Respuesta: Si")]]
        [] [] "+59170000000" "excel" 0 false).1 =
      course_brief [("Curso", "Excel"),
        ("FAQ", "Si preguntan: excel bueno Respuesta: Si")] :=
  claim_C2 [[("Curso", "Excel"),
      ("FAQ", "Si preguntan: excel bueno Respuesta: Si")]]
    [] [] "+59170000000" "excel" 0 false
    [("Curso", "Excel"), ("FAQ", "Si preguntan: excel bueno Respuesta: Si")]
    (by decide) (by decide) (by decide) (by decide)

end Motiva
